import Mathlib

/-!
FGSLS basket operations.

A shallow embedding of `fgsls_basket_operations.c`: basket creation, adding,
reading and deleting small files inside a basket, the free-slot search, the
compactor and the position ("Taver") index update.

Conventions of the embedding.

* The structures, enumerations and constants are declared in `fgsls.h`, which is
  not among the sources. The fields that the C file touches are kept under their
  C names; the constants are collected in `Consts` and every definition is
  parametric in them.
* Integer fields are natural numbers below the modulus `2^w` of their unsigned
  C type. The moduli of the types that `fgsls.h` declares are fields of `Consts`;
  `uint64_t` locals of the C file are taken modulo `2 ^ 64`. Every addition and
  increment (`used_size + BASKET_DEFAULT_SIZE`, `used_space += size`,
  `free_space += ...`, `total_size += ...`, `compaction_count++`,
  `total_writes++`, ...) and every unguarded subtraction (`file_count--`,
  `used_space -= ...`, `basket_size - free_space`,
  `BASKET_DEFAULT_SIZE - used_space`) wraps around like C unsigned arithmetic,
  see `wrapAdd` and `wrapSub`. Only the steps that the source guards by a
  comparison just before are plain: `basket_count++` (after
  `basket_count >= max_baskets`), `file_count++` (after
  `file_count >= BASKET_MAX_FILES`), `free_space -= size` (after
  `free_space < size`) and `total_size - used_size` (after the capacity guard).
* A pointer argument is the value it points to together with a flag that says
  whether the pointer is non-null (`CreatePtrs`, `AddPtrs`, `ReadPtrs`,
  `DeletePtrs`); the first guard of every operation tests the flags.
* An array together with its element count (`entries`/`entry_count`,
  `items`/`current_items`, `shelves`/`shelf_count`) is the list of its first
  `count` elements.
* The collaborators `fgsls_calculate_hash`, `fgsls_generate_tag`,
  `fgsls_get_current_time` are parameters (`Env`); `fgsls_compare_tags(a, b) == 0`
  is equality of tags. `_fgsls_write_basket_header` performs no I/O in the
  source and always succeeds; every operation reports the header it handed to it
  in the field `written` of its result.
-/

namespace FGSLS

-- Data model and operations, in the order of the C source.

/-- Return codes of the operations (`FGSLS_SUCCESS`, `FGSLS_ERROR_*`). -/
inductive ErrorCode where
  | SUCCESS
  | INVALID_PARAMETER
  | SYSTEM_NOT_MOUNTED
  | SHELF_FULL
  | DISK_FULL
  | BASKET_FULL
  | FILE_NOT_FOUND
  | CORRUPTED_DATA
  | HASH_MISMATCH
  | OUT_OF_MEMORY
deriving DecidableEq, Repr

/-- A tag (`fgsls_tag_t`); `0` is the all-zero tag left by `memset`. -/
abbrev Tag := Nat

/-- A digest (`fgsls_hash_t`); `0` is the all-zero digest left by `memset`. -/
abbrev Hash := Nat

/-- Constants and sizes declared in `fgsls.h`. `HEADER_SIZE` is
`sizeof(fgsls_basket_header_t)`, `FILENAME_SIZE` is `sizeof(file_entry->filename)`,
the fields ending in `MOD` are the moduli `2^w` of unsigned types: `COUNT_MOD`
of the header counters (`file_count`, `deleted_count`, `compaction_count`),
`SPACE_MOD` of the header space fields (`used_space`, `free_space`), `SHELF_MOD`
of the shelf size fields (`used_size`, `total_size`, `free_size`),
`QUARANTINE_MOD` of the quarantine's `total_size`, `STAT_MOD` of `total_reads`
and `total_writes`, `FREQ_MOD` of `access_frequency`. -/
structure Consts where
  BASKET_DEFAULT_SIZE : Nat
  BASKET_MAX_FILES : Nat
  BASKET_MAX_FILE_SIZE : Nat
  MAX_FILENAME_LENGTH : Nat
  FILENAME_SIZE : Nat
  HEADER_SIZE : Nat
  DATA_TYPE_UNKNOWN : Nat
  COUNT_MOD : Nat
  SPACE_MOD : Nat
  SHELF_MOD : Nat
  QUARANTINE_MOD : Nat
  STAT_MOD : Nat
  FREQ_MOD : Nat
deriving DecidableEq, Repr

/-- Container kind of a position entry; `OTHER` stands for the enumerators that
this file never assigns. -/
inductive ContainerType where
  | BASKET
  | BASKET_FILE
  | OTHER (n : Nat)
deriving DecidableEq, Repr

/-- Garbage category of a quarantined item. -/
inductive GarbageType where
  | ORPHANED_BASKET_FILE
  | OTHER (n : Nat)
deriving DecidableEq, Repr

/-- Operation kind of a journal record. -/
inductive JournalOp where
  | WRITE
  | READ
  | DELETE
deriving DecidableEq, Repr

/-- One file slot of a basket header (`fgsls_basket_file_entry_t`). -/
structure FileEntry where
  tag : Tag
  filename : List Nat
  file_size : Nat
  data_offset : Nat
  creation_time : Nat
  modification_time : Nat
  access_time : Nat
  data_type : Nat
  permissions : Nat
  is_deleted : Bool
  file_hash : Hash
deriving DecidableEq, Repr

/-- Basket header (`fgsls_basket_header_t`); `files` is the slot array. -/
structure BasketHeader where
  tag : Tag
  shelf_id : Nat
  basket_size : Nat
  file_count : Nat
  deleted_count : Nat
  used_space : Nat
  free_space : Nat
  creation_time : Nat
  last_compaction : Nat
  compaction_count : Nat
  physical_offset : Nat
  basket_hash : Hash
  files : List FileEntry
deriving DecidableEq, Repr

/-- Entry of the position index (`fgsls_position_entry_t`). -/
structure PositionEntry where
  tag : Tag
  shelf_id : Nat
  physical_offset : Nat
  container_type : ContainerType
  internal_offset : Nat
  size : Nat
  last_access : Nat
  access_frequency : Nat
  is_fragmented : Bool
deriving DecidableEq, Repr

/-- The position index (`fgsls_taver_index_t`); `entry_count` is the length of
`entries`. -/
structure TaverIndex where
  entries : List PositionEntry
  max_entries : Nat
  last_update : Nat
deriving DecidableEq, Repr

/-- Quarantined record of a deleted file (`fgsls_garbage_item_t`); the free-text
description is not represented. -/
structure GarbageItem where
  tag : Tag
  garbage_type : GarbageType
  shelf_id : Nat
  size : Nat
  deletion_time : Nat
  quarantine_time : Nat
  is_recoverable : Bool
  data_hash : Hash
deriving DecidableEq, Repr

/-- The quarantine zone (`fgsls_quarantine_zone_t`); `current_items` is the
length of `items`. -/
structure QuarantineZone where
  items : List GarbageItem
  max_items : Nat
  total_size : Nat
deriving DecidableEq, Repr

/-- Counters of a shelf (`shelf->config`). -/
structure ShelfConfig where
  basket_count : Nat
  max_baskets : Nat
  used_size : Nat
  total_size : Nat
  free_size : Nat
deriving DecidableEq, Repr

/-- A shelf (`fgsls_shelf_header_t`). -/
structure Shelf where
  physical_start : Nat
  config : ShelfConfig
deriving DecidableEq, Repr

/-- A journal record (`sant_journal_entry_t`) without its description text. -/
structure JournalEntry where
  sequence_number : Nat
  timestamp : Nat
  operation_type : JournalOp
  target_tag : Tag
  shelf_id : Nat
  data_size : Nat
deriving DecidableEq, Repr

/-- The system state (`fgsls_system_t`); `shelf_count` is the length of
`shelves`, `quarantine` is `zht_config.quarantine`. The field `journal` is
modelled from the spec: the journal writer is an external append-only log, and
the records handed to `fgsls_write_journal_entry` are collected here. -/
structure System where
  is_mounted : Bool
  shelves : List Shelf
  taver_index : TaverIndex
  quarantine : QuarantineZone
  total_reads : Nat
  total_writes : Nat
  journal : List JournalEntry
deriving DecidableEq, Repr

/-- The external collaborators of one call: `hash` is `fgsls_calculate_hash` on a
byte buffer, `header_bytes` is the object representation of a header (the bytes
that are hashed), `clock k` is the value returned by `fgsls_get_current_time` at
the `k`-th call site of the running operation, `gen_tag` is the value returned
by `fgsls_generate_tag`. -/
structure Env where
  hash : List Nat → Hash
  header_bytes : BasketHeader → List Nat
  clock : Nat → Nat
  gen_tag : Tag

/-- Unsigned addition `a + b` modulo `m`. -/
def wrapAdd (m a b : Nat) : Nat :=
  (a + b) % m

/-- Unsigned subtraction `a - b` modulo `m`, for operands below `m`. -/
def wrapSub (m a b : Nat) : Nat :=
  if b ≤ a then a - b else a + m - b

/-- Index of the first element satisfying `p`: the loop
`for (i = 0; i < n; i++) if (p(xs[i])) { ...; break; }`. -/
def firstIndex {α : Type} (p : α → Bool) : List α → Option Nat
  | [] => none
  | a :: l => if p a then some 0 else (firstIndex p l).map (· + 1)

/-- A slot after `memset(&slot, 0, sizeof(fgsls_basket_file_entry_t))`. -/
def zeroFileEntry : FileEntry :=
  { tag := 0, filename := [], file_size := 0, data_offset := 0, creation_time := 0,
    modification_time := 0, access_time := 0, data_type := 0, permissions := 0,
    is_deleted := false, file_hash := 0 }

/-- A zeroed slot marked unused (`is_deleted = true`). -/
def unusedFileEntry : FileEntry :=
  { zeroFileEntry with is_deleted := true }

/-- The value `_fgsls_allocate_basket_space` stores in `*physical_offset`, a
`uint64_t`; the function always returns `FGSLS_SUCCESS`. -/
def _fgsls_allocate_basket_space (shelf : Shelf) : Nat :=
  wrapAdd (2 ^ 64) shelf.physical_start shelf.config.used_size

/-- The header built by `fgsls_create_basket` (source lines 62-82). -/
def create_basket_header (c : Consts) (tag : Tag) (shelf_id : Nat) (now : Nat)
    (physical_offset : Nat) : BasketHeader :=
  { tag := tag
    shelf_id := shelf_id
    basket_size := c.BASKET_DEFAULT_SIZE
    file_count := 0
    deleted_count := 0
    used_space := c.HEADER_SIZE
    free_space := wrapSub c.SPACE_MOD c.BASKET_DEFAULT_SIZE c.HEADER_SIZE
    creation_time := now
    last_compaction := now
    compaction_count := 0
    physical_offset := physical_offset
    basket_hash := 0
    files := List.replicate c.BASKET_MAX_FILES unusedFileEntry }

/-- First entry of the index with the given tag and kind `BASKET`, and the dummy
header `_fgsls_read_basket_header` builds from it: zero-filled except for the
tag, the shelf id, the physical offset and the basket size. -/
def _fgsls_read_basket_header (c : Consts) (system : System) (tag : Tag) :
    Except ErrorCode BasketHeader :=
  match system.taver_index.entries.find?
      (fun e => e.tag == tag && e.container_type == ContainerType.BASKET) with
  | none => .error ErrorCode.FILE_NOT_FOUND
  | some entry =>
    .ok { tag := tag
          shelf_id := entry.shelf_id
          basket_size := c.BASKET_DEFAULT_SIZE
          file_count := 0
          deleted_count := 0
          used_space := 0
          free_space := 0
          creation_time := 0
          last_compaction := 0
          compaction_count := 0
          physical_offset := entry.physical_offset
          basket_hash := 0
          files := List.replicate c.BASKET_MAX_FILES zeroFileEntry }

/-- Linear scan for the first slot with the deleted flag set; `none` is
`FGSLS_ERROR_BASKET_FULL`. -/
def _fgsls_find_free_file_slot (header : BasketHeader) : Option Nat :=
  firstIndex (fun f => f.is_deleted) header.files

/-- The bytes `_fgsls_compact_basket` adds up in its `uint64_t` local
`reclaimed_space`. -/
def reclaimed_space (files : List FileEntry) : Nat :=
  (files.map (fun f => if f.is_deleted && decide (f.file_size > 0) then f.file_size else 0)).sum
    % 2 ^ 64

/-- The loop body of `_fgsls_compact_basket` on one slot. -/
def compact_slot (f : FileEntry) : FileEntry :=
  if f.is_deleted && decide (f.file_size > 0) then unusedFileEntry else f

/-- Compaction of a header at time `now`; the function always returns
`FGSLS_SUCCESS`. -/
def _fgsls_compact_basket (c : Consts) (now : Nat) (header : BasketHeader) : BasketHeader :=
  if header.deleted_count = 0 then header
  else
    { header with
      files := header.files.map compact_slot
      free_space := wrapAdd c.SPACE_MOD header.free_space (reclaimed_space header.files)
      used_space := wrapSub c.SPACE_MOD header.used_space (reclaimed_space header.files)
      deleted_count := 0
      last_compaction := now
      compaction_count := wrapAdd c.COUNT_MOD header.compaction_count 1 }

/-- Store the integrity hash: hash of the header with its hash field zeroed. -/
def store_basket_hash (env : Env) (header : BasketHeader) : BasketHeader :=
  { header with basket_hash := env.hash (env.header_bytes { header with basket_hash := 0 }) }

/-- Append an entry to the position index (`_fgsls_update_basket_position`);
`t_access` and `t_update` are the two clock readings. -/
def _fgsls_update_basket_position (c : Consts) (taver : TaverIndex) (basket_tag file_tag : Tag)
    (shelf_id physical_offset internal_offset : Nat) (t_access t_update : Nat) :
    ErrorCode × TaverIndex :=
  if taver.entries.length ≥ taver.max_entries then (ErrorCode.OUT_OF_MEMORY, taver)
  else
    let entry : PositionEntry :=
      if basket_tag == file_tag then
        { tag := file_tag, shelf_id := shelf_id, physical_offset := physical_offset,
          container_type := ContainerType.BASKET, internal_offset := 0,
          size := c.BASKET_DEFAULT_SIZE, last_access := t_access, access_frequency := 0,
          is_fragmented := false }
      else
        { tag := file_tag, shelf_id := shelf_id, physical_offset := physical_offset,
          container_type := ContainerType.BASKET_FILE, internal_offset := internal_offset,
          size := 0, last_access := t_access, access_frequency := 0,
          is_fragmented := false }
    (ErrorCode.SUCCESS, { taver with entries := taver.entries ++ [entry], last_update := t_update })

/-- Pointer to the first element satisfying `p` together with its index: the
loop `for (i = 0; i < n; i++) if (p(xs[i])) { e = &xs[i]; idx = i; break; }`. -/
def firstMatch {α : Type} (p : α → Bool) : List α → Option (Nat × α)
  | [] => none
  | a :: l => if p a then some (0, a) else (firstMatch p l).map (fun r => (r.1 + 1, r.2))

/-- Result of `fgsls_create_basket`: return code, system state after the call,
the value stored through `tag` (if any) and the header handed to
`_fgsls_write_basket_header` (if any). -/
structure CreateResult where
  code : ErrorCode
  system : System
  tag : Option Tag
  written : Option BasketHeader
deriving DecidableEq, Repr

/-- The pointer arguments of `fgsls_create_basket`: `true` is a non-null
pointer. -/
structure CreatePtrs where
  system : Bool
  tag : Bool
deriving DecidableEq, Repr

/-- Create a new basket on shelf `shelf_id`. Clock sites: 0 creation time,
1 and 2 inside the index update, 3 journal timestamp. -/
def fgsls_create_basket (c : Consts) (env : Env) (p : CreatePtrs) (system : System)
    (shelf_id : Nat) : CreateResult :=
  if !p.system || !p.tag || decide (shelf_id ≥ system.shelves.length) then
    ⟨ErrorCode.INVALID_PARAMETER, system, none, none⟩
  else if !system.is_mounted then
    ⟨ErrorCode.SYSTEM_NOT_MOUNTED, system, none, none⟩
  else
    match system.shelves[shelf_id]? with
    | none => ⟨ErrorCode.INVALID_PARAMETER, system, none, none⟩
    | some shelf =>
      if shelf.config.basket_count ≥ shelf.config.max_baskets then
        ⟨ErrorCode.SHELF_FULL, system, none, none⟩
      else if wrapAdd c.SHELF_MOD shelf.config.used_size c.BASKET_DEFAULT_SIZE
          > shelf.config.total_size then
        ⟨ErrorCode.DISK_FULL, system, none, none⟩
      else
        let tag := env.gen_tag
        let physical_offset := _fgsls_allocate_basket_space shelf
        let header := create_basket_header c tag shelf_id (env.clock 0) physical_offset
        let r := _fgsls_update_basket_position c system.taver_index tag tag shelf_id
          physical_offset 0 (env.clock 1) (env.clock 2)
        if r.1 ≠ ErrorCode.SUCCESS then
          ⟨r.1, system, some tag, some header⟩
        else
          let used_size := wrapAdd c.SHELF_MOD shelf.config.used_size c.BASKET_DEFAULT_SIZE
          let shelf1 : Shelf :=
            { shelf with config :=
              { shelf.config with
                basket_count := shelf.config.basket_count + 1
                used_size := used_size
                free_size := shelf.config.total_size - used_size } }
          let journal_entry : JournalEntry :=
            { sequence_number := system.total_writes
              timestamp := env.clock 3
              operation_type := JournalOp.WRITE
              target_tag := tag
              shelf_id := shelf_id
              data_size := c.BASKET_DEFAULT_SIZE }
          ⟨ErrorCode.SUCCESS,
            { system with
              shelves := system.shelves.set shelf_id shelf1
              taver_index := r.2
              total_writes := wrapAdd c.STAT_MOD system.total_writes 1
              journal := system.journal ++ [journal_entry] },
            some tag, some header⟩

/-- Source lines 172-211 of `fgsls_add_file_to_basket`: take the first free slot,
fill it, update the counters and store the integrity hash. Returns the header
handed to `_fgsls_write_basket_header` and the slot index. The lines are reached
only behind the guards of lines 156 and 162-170, which is why `file_count++` and
`free_space -= size` are plain. -/
def add_file_slot (c : Consts) (env : Env) (header : BasketHeader) (filename data : List Nat)
    (size : Nat) : Except ErrorCode (BasketHeader × Nat) :=
  match _fgsls_find_free_file_slot header with
  | none => .error ErrorCode.BASKET_FULL
  | some slot_index =>
    let file_entry : FileEntry :=
      { tag := env.gen_tag
        filename := filename.take (c.FILENAME_SIZE - 1)
        file_size := size
        data_offset := wrapSub c.SPACE_MOD header.basket_size header.free_space
        creation_time := env.clock 1
        modification_time := env.clock 1
        access_time := env.clock 1
        data_type := c.DATA_TYPE_UNKNOWN
        permissions := 420
        is_deleted := false
        file_hash := env.hash (data.take size) }
    .ok (store_basket_hash env
          { header with
            files := header.files.set slot_index file_entry
            file_count := header.file_count + 1
            used_space := wrapAdd c.SPACE_MOD header.used_space size
            free_space := header.free_space - size },
         slot_index)

/-- Source lines 155-211 of `fgsls_add_file_to_basket`: the update of a loaded
header. Clock sites: 0 compaction stamp, 1 creation time of the slot. -/
def add_file_update (c : Consts) (env : Env) (header : BasketHeader) (filename data : List Nat)
    (size : Nat) : Except ErrorCode (BasketHeader × Nat) :=
  if header.file_count ≥ c.BASKET_MAX_FILES then .error ErrorCode.BASKET_FULL
  else if header.free_space < size then
    let header1 := _fgsls_compact_basket c (env.clock 0) header
    if header1.free_space < size then .error ErrorCode.BASKET_FULL
    else add_file_slot c env header1 filename data size
  else add_file_slot c env header filename data size

/-- Result of `fgsls_add_file_to_basket`. -/
structure AddResult where
  code : ErrorCode
  system : System
  file_tag : Option Tag
  written : Option BasketHeader
deriving DecidableEq, Repr

/-- The pointer arguments of `fgsls_add_file_to_basket`: `true` is a non-null
pointer. -/
structure AddPtrs where
  system : Bool
  basket_tag : Bool
  filename : Bool
  data : Bool
  file_tag : Bool
deriving DecidableEq, Repr

/-- Add a file of `size` bytes to the basket `basket_tag`. Clock sites: 0 and 1
in the header update, 2 and 3 inside the index update, 4 journal timestamp. -/
def fgsls_add_file_to_basket (c : Consts) (env : Env) (p : AddPtrs) (system : System)
    (basket_tag : Tag) (filename data : List Nat) (size : Nat) : AddResult :=
  if !p.system || !p.basket_tag || !p.filename || !p.data || decide (size = 0) ||
      !p.file_tag then
    ⟨ErrorCode.INVALID_PARAMETER, system, none, none⟩
  else if !system.is_mounted then
    ⟨ErrorCode.SYSTEM_NOT_MOUNTED, system, none, none⟩
  else if size > c.BASKET_MAX_FILE_SIZE then
    ⟨ErrorCode.INVALID_PARAMETER, system, none, none⟩
  else if filename.length ≥ c.MAX_FILENAME_LENGTH then
    ⟨ErrorCode.INVALID_PARAMETER, system, none, none⟩
  else
    match _fgsls_read_basket_header c system basket_tag with
    | .error e => ⟨e, system, none, none⟩
    | .ok header0 =>
      match add_file_update c env header0 filename data size with
      | .error e => ⟨e, system, none, none⟩
      | .ok (header, slot_index) =>
        let file_tag := env.gen_tag
        let data_offset := (header.files.getD slot_index zeroFileEntry).data_offset
        let r := _fgsls_update_basket_position c system.taver_index basket_tag file_tag
          header.shelf_id header.physical_offset (data_offset % 2 ^ 32) (env.clock 2) (env.clock 3)
        if r.1 ≠ ErrorCode.SUCCESS then
          ⟨r.1, system, some file_tag, some header⟩
        else
          let journal_entry : JournalEntry :=
            { sequence_number := system.total_writes
              timestamp := env.clock 4
              operation_type := JournalOp.WRITE
              target_tag := file_tag
              shelf_id := header.shelf_id
              data_size := size }
          ⟨ErrorCode.SUCCESS,
            { system with
              taver_index := r.2
              total_writes := wrapAdd c.STAT_MOD system.total_writes 1
              journal := system.journal ++ [journal_entry] },
            some file_tag, some header⟩

/-- What the tag resolution shared by read and delete finds: the index entry of
the file with its position, the tag of the owning basket and its loaded header. -/
structure BasketLocation where
  entry_index : Nat
  entry : PositionEntry
  basket_tag : Tag
  header : BasketHeader
deriving DecidableEq, Repr

/-- Tag resolution of `fgsls_read_file_from_basket` (source lines 261-299) and of
`fgsls_delete_file_from_basket` (lines 382-422): first index entry with the tag,
which must be of kind `BASKET_FILE`; first `BASKET` entry with the same shelf id
and physical offset; header of that basket. -/
def locate_basket (c : Consts) (system : System) (file_tag : Tag) :
    Except ErrorCode BasketLocation :=
  match firstMatch (fun e => e.tag == file_tag) system.taver_index.entries with
  | none => .error ErrorCode.FILE_NOT_FOUND
  | some (entry_index, entry) =>
    if entry.container_type ≠ ContainerType.BASKET_FILE then .error ErrorCode.FILE_NOT_FOUND
    else
      match system.taver_index.entries.find? (fun e =>
          e.container_type == ContainerType.BASKET && e.shelf_id == entry.shelf_id &&
          e.physical_offset == entry.physical_offset) with
      | none => .error ErrorCode.CORRUPTED_DATA
      | some b =>
        match _fgsls_read_basket_header c system b.tag with
        | .error e => .error e
        | .ok header => .ok ⟨entry_index, entry, b.tag, header⟩

/-- The live slot carrying `file_tag` (source lines 301-309 and 424-432): first
slot with the deleted flag clear and an equal tag, with its index. -/
def find_file_entry (header : BasketHeader) (file_tag : Tag) : Option (Nat × FileEntry) :=
  firstMatch (fun f => !f.is_deleted && f.tag == file_tag) header.files

/-- Result of `fgsls_read_file_from_basket`: `buffer` is the caller's buffer and
`size` the value of `*size` after the call. -/
structure ReadResult where
  code : ErrorCode
  system : System
  buffer : List Nat
  size : Nat
  written : Option BasketHeader
deriving DecidableEq, Repr

/-- Source lines 301-365 of `fgsls_read_file_from_basket`: the read once the tag
is resolved to `loc`. The source simulates the physical read by zero-filling the
first `file_size` bytes of the buffer. Clock sites: 0 access time, 1 journal
timestamp. -/
def read_located (c : Consts) (env : Env) (system : System) (file_tag : Tag)
    (loc : BasketLocation) (buffer : List Nat) (size : Nat) : ReadResult :=
  match find_file_entry loc.header file_tag with
  | none => ⟨ErrorCode.FILE_NOT_FOUND, system, buffer, size, none⟩
  | some (slot_index, file_entry) =>
    if size < file_entry.file_size then
      ⟨ErrorCode.INVALID_PARAMETER, system, buffer, file_entry.file_size, none⟩
    else
      let buffer1 := List.replicate file_entry.file_size 0 ++ buffer.drop file_entry.file_size
      if env.hash (buffer1.take file_entry.file_size) ≠ file_entry.file_hash then
        ⟨ErrorCode.HASH_MISMATCH, system, buffer1, size, none⟩
      else
        let file_entry1 : FileEntry := { file_entry with access_time := env.clock 0 }
        let entry1 : PositionEntry :=
          { loc.entry with
            access_frequency := wrapAdd c.FREQ_MOD loc.entry.access_frequency 1
            last_access := env.clock 0 }
        let header : BasketHeader :=
          { loc.header with files := loc.header.files.set slot_index file_entry1 }
        let journal_entry : JournalEntry :=
          { sequence_number := wrapAdd c.STAT_MOD system.total_reads 1
            timestamp := env.clock 1
            operation_type := JournalOp.READ
            target_tag := file_tag
            shelf_id := header.shelf_id
            data_size := file_entry.file_size }
        ⟨ErrorCode.SUCCESS,
          { system with
            taver_index :=
              { system.taver_index with
                entries := system.taver_index.entries.set loc.entry_index entry1 }
            total_reads := wrapAdd c.STAT_MOD system.total_reads 1
            journal := system.journal ++ [journal_entry] },
          buffer1, file_entry.file_size, some header⟩

/-- The pointer arguments of `fgsls_read_file_from_basket`: `true` is a non-null
pointer. -/
structure ReadPtrs where
  system : Bool
  file_tag : Bool
  buffer : Bool
  size : Bool
deriving DecidableEq, Repr

/-- Read the file `file_tag` into `buffer`, whose capacity is `size`. -/
def fgsls_read_file_from_basket (c : Consts) (env : Env) (p : ReadPtrs) (system : System)
    (file_tag : Tag) (buffer : List Nat) (size : Nat) : ReadResult :=
  if !p.system || !p.file_tag || !p.buffer || !p.size then
    ⟨ErrorCode.INVALID_PARAMETER, system, buffer, size, none⟩
  else if !system.is_mounted then
    ⟨ErrorCode.SYSTEM_NOT_MOUNTED, system, buffer, size, none⟩
  else
    match locate_basket c system file_tag with
    | .error e => ⟨e, system, buffer, size, none⟩
    | .ok loc => read_located c env system file_tag loc buffer size

/-- Source lines 460-472 of `fgsls_delete_file_from_basket`: mark the slot
deleted, update the counters and store the integrity hash. -/
def mark_deleted (c : Consts) (env : Env) (header : BasketHeader) (slot_index : Nat)
    (file_entry : FileEntry) : BasketHeader :=
  store_basket_hash env
    { header with
      files := header.files.set slot_index { file_entry with is_deleted := true }
      file_count := wrapSub c.COUNT_MOD header.file_count 1
      deleted_count := wrapAdd c.COUNT_MOD header.deleted_count 1
      used_space := wrapSub c.SPACE_MOD header.used_space file_entry.file_size
      free_space := wrapAdd c.SPACE_MOD header.free_space file_entry.file_size }

/-- The update of a loaded header by `fgsls_delete_file_from_basket` (source
lines 424-436 and 460-472): the new header and the slot that was deleted. -/
def delete_file_update (c : Consts) (env : Env) (header : BasketHeader) (file_tag : Tag) :
    Except ErrorCode (BasketHeader × FileEntry) :=
  match find_file_entry header file_tag with
  | none => .error ErrorCode.FILE_NOT_FOUND
  | some (slot_index, file_entry) => .ok (mark_deleted c env header slot_index file_entry, file_entry)

/-- The quarantine after `fgsls_delete_file_from_basket` offered it `item`
(source lines 452-458). -/
def quarantine_add (c : Consts) (quarantine : QuarantineZone) (item : GarbageItem) :
    QuarantineZone :=
  if quarantine.items.length < quarantine.max_items then
    { quarantine with
      items := quarantine.items ++ [item]
      total_size := wrapAdd c.QUARANTINE_MOD quarantine.total_size item.size }
  else quarantine

/-- Result of `fgsls_delete_file_from_basket`. -/
structure DeleteResult where
  code : ErrorCode
  system : System
  written : Option BasketHeader
deriving DecidableEq, Repr

/-- Source lines 424-501 of `fgsls_delete_file_from_basket`: the delete once the
tag is resolved to `loc`. Clock sites: 0 deletion time, 1 journal timestamp. -/
def delete_located (c : Consts) (env : Env) (system : System) (file_tag : Tag)
    (loc : BasketLocation) : DeleteResult :=
  match delete_file_update c env loc.header file_tag with
  | .error e => ⟨e, system, none⟩
  | .ok (header, file_entry) =>
    let garbage_item : GarbageItem :=
      { tag := file_tag
        garbage_type := GarbageType.ORPHANED_BASKET_FILE
        shelf_id := loc.header.shelf_id
        size := file_entry.file_size
        deletion_time := env.clock 0
        quarantine_time := env.clock 0
        is_recoverable := true
        data_hash := file_entry.file_hash }
    let journal_entry : JournalEntry :=
      { sequence_number := system.total_writes
        timestamp := env.clock 1
        operation_type := JournalOp.DELETE
        target_tag := file_tag
        shelf_id := header.shelf_id
        data_size := garbage_item.size }
    ⟨ErrorCode.SUCCESS,
      { system with
        quarantine := quarantine_add c system.quarantine garbage_item
        taver_index :=
          { system.taver_index with
            entries := system.taver_index.entries.eraseIdx loc.entry_index }
        total_writes := wrapAdd c.STAT_MOD system.total_writes 1
        journal := system.journal ++ [journal_entry] },
      some header⟩

/-- The pointer arguments of `fgsls_delete_file_from_basket`: `true` is a
non-null pointer. -/
structure DeletePtrs where
  system : Bool
  file_tag : Bool
deriving DecidableEq, Repr

/-- Delete the file `file_tag`. -/
def fgsls_delete_file_from_basket (c : Consts) (env : Env) (p : DeletePtrs) (system : System)
    (file_tag : Tag) : DeleteResult :=
  if !p.system || !p.file_tag then
    ⟨ErrorCode.INVALID_PARAMETER, system, none⟩
  else if !system.is_mounted then
    ⟨ErrorCode.SYSTEM_NOT_MOUNTED, system, none⟩
  else
    match locate_basket c system file_tag with
    | .error e => ⟨e, system, none⟩
    | .ok loc => delete_located c env system file_tag loc

-- Notions used to state the properties.

/-- A call of `fgsls_create_basket` with non-null pointers. -/
def CreatePtrs.valid : CreatePtrs := ⟨true, true⟩

/-- A call of `fgsls_add_file_to_basket` with non-null pointers. -/
def AddPtrs.valid : AddPtrs := ⟨true, true, true, true, true⟩

/-- A call of `fgsls_read_file_from_basket` with non-null pointers. -/
def ReadPtrs.valid : ReadPtrs := ⟨true, true, true, true⟩

/-- A call of `fgsls_delete_file_from_basket` with non-null pointers. -/
def DeletePtrs.valid : DeletePtrs := ⟨true, true⟩

/-- `e` is the first element of `l` satisfying `p`, and `i` is its index. -/
def IsFirstAt {α : Type} (p : α → Bool) (l : List α) (i : Nat) (e : α) : Prop :=
  l[i]? = some e ∧ p e = true ∧ ∀ j x, j < i → l[j]? = some x → p x = false

/-- The entry `fgsls_create_basket` appends to the index. -/
def basket_entry (c : Consts) (env : Env) (shelf_id : Nat) (shelf : Shelf) : PositionEntry :=
  { tag := env.gen_tag, shelf_id := shelf_id,
    physical_offset := _fgsls_allocate_basket_space shelf,
    container_type := ContainerType.BASKET, internal_offset := 0,
    size := c.BASKET_DEFAULT_SIZE, last_access := env.clock 1, access_frequency := 0,
    is_fragmented := false }

/-- The system state after a successful `fgsls_create_basket` on `shelf`. -/
def created_system (c : Consts) (env : Env) (s : System) (shelf_id : Nat) (shelf : Shelf) :
    System :=
  { s with
    shelves := s.shelves.set shelf_id
      { shelf with config :=
        { shelf.config with
          basket_count := shelf.config.basket_count + 1
          used_size := wrapAdd c.SHELF_MOD shelf.config.used_size c.BASKET_DEFAULT_SIZE
          free_size := shelf.config.total_size -
            wrapAdd c.SHELF_MOD shelf.config.used_size c.BASKET_DEFAULT_SIZE } }
    taver_index :=
      { s.taver_index with
        entries := s.taver_index.entries ++ [basket_entry c env shelf_id shelf]
        last_update := env.clock 2 }
    total_writes := wrapAdd c.STAT_MOD s.total_writes 1
    journal := s.journal ++
      [{ sequence_number := s.total_writes, timestamp := env.clock 3,
         operation_type := JournalOp.WRITE, target_tag := env.gen_tag,
         shelf_id := shelf_id, data_size := c.BASKET_DEFAULT_SIZE }] }

/-- The system state after a successful `fgsls_delete_file_from_basket` that
resolved the tag to `loc` and deleted the slot `file_entry`. -/
def deleted_system (c : Consts) (env : Env) (s : System) (file_tag : Tag)
    (loc : BasketLocation) (file_entry : FileEntry) : System :=
  { s with
    quarantine := quarantine_add c s.quarantine
      { tag := file_tag
        garbage_type := GarbageType.ORPHANED_BASKET_FILE
        shelf_id := loc.header.shelf_id
        size := file_entry.file_size
        deletion_time := env.clock 0
        quarantine_time := env.clock 0
        is_recoverable := true
        data_hash := file_entry.file_hash }
    taver_index :=
      { s.taver_index with entries := s.taver_index.entries.eraseIdx loc.entry_index }
    total_writes := wrapAdd c.STAT_MOD s.total_writes 1
    journal := s.journal ++
      [{ sequence_number := s.total_writes, timestamp := env.clock 1,
         operation_type := JournalOp.DELETE, target_tag := file_tag,
         shelf_id := loc.header.shelf_id, data_size := file_entry.file_size }] }

/-- The caller's buffer after the simulated physical read of `n` bytes. -/
def zero_filled (buffer : List Nat) (n : Nat) : List Nat :=
  List.replicate n 0 ++ buffer.drop n

/-- The system state after a successful `fgsls_read_file_from_basket` that
resolved the tag to `loc` and read the slot `file_entry`. -/
def read_system (c : Consts) (env : Env) (s : System) (file_tag : Tag)
    (loc : BasketLocation) (file_entry : FileEntry) : System :=
  { s with
    taver_index :=
      { s.taver_index with
        entries := s.taver_index.entries.set loc.entry_index
          { loc.entry with
            access_frequency := wrapAdd c.FREQ_MOD loc.entry.access_frequency 1
            last_access := env.clock 0 } }
    total_reads := wrapAdd c.STAT_MOD s.total_reads 1
    journal := s.journal ++
      [{ sequence_number := wrapAdd c.STAT_MOD s.total_reads 1, timestamp := env.clock 1,
         operation_type := JournalOp.READ, target_tag := file_tag,
         shelf_id := loc.header.shelf_id, data_size := file_entry.file_size }] }

/-- One header update: the update of a loaded header by add file (with the
collaborators, file name, data and size of the call), by delete file (with the
collaborators and the tag of the call) or by the compactor (with its clock
reading). -/
inductive HeaderOp where
  | add (env : Env) (filename data : List Nat) (size : Nat)
  | delete (env : Env) (file_tag : Tag)
  | compact (now : Nat)

/-- Apply one header update; `none` when the update fails. -/
def apply_op (c : Consts) (h : BasketHeader) : HeaderOp → Option BasketHeader
  | .add env filename data size =>
    match add_file_update c env h filename data size with
    | .ok r => some r.1
    | .error _ => none
  | .delete env file_tag =>
    match delete_file_update c env h file_tag with
    | .ok r => some r.1
    | .error _ => none
  | .compact now => some (_fgsls_compact_basket c now h)

/-- Apply a finite sequence of header updates, all of which must succeed. -/
def apply_ops (c : Consts) (h : BasketHeader) : List HeaderOp → Option BasketHeader
  | [] => some h
  | op :: ops =>
    match apply_op c h op with
    | some h1 => apply_ops c h1 ops
    | none => none

/-- Number of slots whose deleted flag is clear. -/
def live_count (files : List FileEntry) : Nat :=
  files.countP (fun f => !f.is_deleted)

-- Sample constants, collaborators and states.

/-- Sample constants: 64 KiB baskets with 8 slots, files up to 4 KiB, 32-bit
counters and 64-bit size fields. -/
def sampleConsts : Consts :=
  { BASKET_DEFAULT_SIZE := 65536
    BASKET_MAX_FILES := 8
    BASKET_MAX_FILE_SIZE := 4096
    MAX_FILENAME_LENGTH := 256
    FILENAME_SIZE := 256
    HEADER_SIZE := 4096
    DATA_TYPE_UNKNOWN := 0
    COUNT_MOD := 2 ^ 32
    SPACE_MOD := 2 ^ 64
    SHELF_MOD := 2 ^ 64
    QUARANTINE_MOD := 2 ^ 64
    STAT_MOD := 2 ^ 64
    FREQ_MOD := 2 ^ 32 }

/-- Sample collaborators: the digest of a buffer is the sum of its bytes, the
clock returns `1000 + k` at site `k`, the next generated tag is `tag`. -/
def sampleEnv (tag : Tag) : Env :=
  { hash := fun bytes => bytes.sum
    header_bytes := fun h => [h.file_count, h.deleted_count, h.used_space, h.free_space]
    clock := fun k => 1000 + k
    gen_tag := tag }

/-- Sample shelf: empty, room for ten baskets. -/
def sampleShelf : Shelf :=
  { physical_start := 4096
    config := { basket_count := 0, max_baskets := 10, used_size := 0,
                total_size := 655360, free_size := 655360 } }

/-- Sample system: mounted, one empty shelf, empty index with room for 100
entries, empty quarantine with room for 16 items. -/
def sampleSystem : System :=
  { is_mounted := true
    shelves := [sampleShelf]
    taver_index := { entries := [], max_entries := 100, last_update := 0 }
    quarantine := { items := [], max_items := 16, total_size := 0 }
    total_reads := 0
    total_writes := 0
    journal := [] }

/-- The file name `"a.txt"` as bytes. -/
def aTxt : List Nat := [97, 46, 116, 120, 116]

/-- The sample system, not mounted. -/
def unmountedSystem : System := { sampleSystem with is_mounted := false }

/-- The sample system with an index that has no room left. -/
def fullIndexSystem : System :=
  { sampleSystem with taver_index := { entries := [], max_entries := 0, last_update := 0 } }

/-- Index entry of basket 7 on shelf 0. -/
def storedBasketEntry : PositionEntry :=
  { tag := 7, shelf_id := 0, physical_offset := 4096, container_type := ContainerType.BASKET,
    internal_offset := 0, size := 65536, last_access := 1001, access_frequency := 0,
    is_fragmented := false }

/-- Index entry of a file with the all-zero tag inside basket 7. -/
def storedFileEntry : PositionEntry :=
  { tag := 0, shelf_id := 0, physical_offset := 4096,
    container_type := ContainerType.BASKET_FILE, internal_offset := 4096, size := 0,
    last_access := 1002, access_frequency := 0, is_fragmented := false }

/-- Index entry of a file (tag 9) whose basket has no entry. -/
def orphanFileEntry : PositionEntry :=
  { tag := 9, shelf_id := 0, physical_offset := 131072,
    container_type := ContainerType.BASKET_FILE, internal_offset := 4096, size := 0,
    last_access := 1002, access_frequency := 0, is_fragmented := false }

/-- The sample system with basket 7, a file entry inside it and an orphan file
entry in the index. -/
def storedSystem : System :=
  { sampleSystem with
    taver_index :=
      { entries := [storedBasketEntry, storedFileEntry, orphanFileEntry],
        max_entries := 100, last_update := 1003 } }

/-- What tag resolution finds for the all-zero tag in `storedSystem`. -/
def storedLocation : BasketLocation :=
  { entry_index := 1
    entry := storedFileEntry
    basket_tag := 7
    header :=
      { tag := 7, shelf_id := 0, basket_size := 65536, file_count := 0, deleted_count := 0,
        used_space := 0, free_space := 0, creation_time := 0, last_compaction := 0,
        compaction_count := 0, physical_offset := 4096, basket_hash := 0,
        files := List.replicate 8 zeroFileEntry } }

/-- Sample collaborators whose digest of a buffer is its length plus one. -/
def lengthEnv : Env :=
  { hash := fun bytes => bytes.length + 1
    header_bytes := fun _ => []
    clock := fun k => 2000 + k
    gen_tag := 11 }

/-- A sample sequence of header updates: add two files (tags 8 and 9), delete
the first one, compact. -/
def sampleOps : List HeaderOp :=
  [ .add (sampleEnv 8) aTxt (List.replicate 100 0) 100,
    .add (sampleEnv 9) aTxt (List.replicate 50 1) 50,
    .delete (sampleEnv 10) 8,
    .compact 3000 ]

/-- The header built by create basket for tag 7 on the sample shelf. -/
def sampleHeader : BasketHeader :=
  create_basket_header sampleConsts 7 0 1000 4096

/-- The header reached from `sampleHeader` by `sampleOps`. -/
def sampleOpsHeader : BasketHeader :=
  (apply_ops sampleConsts sampleHeader sampleOps).getD sampleHeader

/-- The sample header after adding the 100-byte file `"a.txt"` (tag 8), with
the slot index that was used. -/
def sampleAdded : BasketHeader × Nat :=
  match add_file_update sampleConsts (sampleEnv 8) sampleHeader aTxt (List.replicate 100 0) 100 with
  | .ok r => r
  | .error _ => (sampleHeader, 0)

/-- The sample header after adding a file of 50 bytes of value 1 (tag 9), with
the slot index that was used. -/
def sampleAddedOnes : BasketHeader × Nat :=
  match add_file_update sampleConsts (sampleEnv 9) sampleHeader aTxt (List.replicate 50 1) 50 with
  | .ok r => r
  | .error _ => (sampleHeader, 0)

/-- The header `sampleAdded` after deleting the file with tag 8, with the slot
that was deleted. -/
def sampleDeleted : BasketHeader × FileEntry :=
  match delete_file_update sampleConsts (sampleEnv 10) sampleAdded.1 8 with
  | .ok r => r
  | .error _ => (sampleHeader, zeroFileEntry)

-- Further notions and sample data.

/-- Sum of `file_size` over the slots that have the deleted flag set and a
nonzero size. -/
def deleted_bytes (files : List FileEntry) : Nat :=
  ((files.filter (fun f => f.is_deleted && decide (f.file_size ≠ 0))).map
    (fun f => f.file_size)).sum

/-- Eight adds of 10-byte files (tags 21 to 28) to one basket. -/
def eightAdds : List HeaderOp :=
  (List.range 8).map (fun k => HeaderOp.add (sampleEnv (21 + k)) aTxt (List.replicate 10 0) 10)

/-- The sample header with all of its eight slots in use. -/
def fullHeader : BasketHeader :=
  (apply_ops sampleConsts sampleHeader eightAdds).getD sampleHeader

/-- The stored integrity hash of `h` is the hash of `h` with its hash field
zeroed. -/
def hash_stored (env : Env) (h : BasketHeader) : Bool :=
  h.basket_hash == env.hash (env.header_bytes { h with basket_hash := 0 })

/-- Number of slots that have the deleted flag set and a nonzero recorded size. -/
def deleted_with_data (files : List FileEntry) : Nat :=
  files.countP (fun f => f.is_deleted && decide (f.file_size ≠ 0))

/-- Sum of `file_size` over the live slots (deleted flag clear). -/
def live_bytes (files : List FileEntry) : Nat :=
  ((files.filter (fun f => !f.is_deleted)).map (fun f => f.file_size)).sum

/-- The byte ranges `[data_offset, data_offset + file_size)` of two slots
intersect. -/
def ranges_overlap (f g : FileEntry) : Bool :=
  decide (f.data_offset < g.data_offset + g.file_size) &&
    decide (g.data_offset < f.data_offset + f.file_size)

/-- Sample collaborators for the integrity hash: the digest is the byte sum, the
hashed bytes of a header are its basket size followed by the access times of its
slots, the clock returns `t0 + k` at site `k`. -/
def auditEnv (tag : Tag) (t0 : Nat) : Env :=
  { hash := fun bytes => bytes.sum
    header_bytes := fun h => h.basket_size :: h.files.map (fun f => f.access_time)
    clock := fun k => t0 + k
    gen_tag := tag }

/-- The sample header after add file stored a 100-byte file (tag 8) at clock
base 1000, with the collaborators `auditEnv`. -/
def auditAdded : BasketHeader × Nat :=
  match add_file_update sampleConsts (auditEnv 8 1000) sampleHeader aTxt (List.replicate 100 0) 100 with
  | .ok r => r
  | .error _ => (sampleHeader, 0)

/-- A resolved location whose header is `auditAdded`. -/
def auditLocation : BasketLocation :=
  { entry_index := 1, entry := storedFileEntry, basket_tag := 7, header := auditAdded.1 }

/-- Add a 100-byte file (tag 8), delete it, add a 50-byte file (tag 9). -/
def reuseOps : List HeaderOp :=
  [ .add (sampleEnv 8) aTxt (List.replicate 100 0) 100,
    .delete (sampleEnv 10) 8,
    .add (sampleEnv 9) aTxt (List.replicate 50 1) 50 ]

/-- The header reached from `sampleHeader` by `reuseOps`. -/
def reuseHeader : BasketHeader :=
  (apply_ops sampleConsts sampleHeader reuseOps).getD sampleHeader

/-- Add a 100-byte file (tag 8) and a 50-byte file (tag 9), delete the first. -/
def beforeCompactOps : List HeaderOp :=
  [ .add (sampleEnv 8) aTxt (List.replicate 100 0) 100,
    .add (sampleEnv 9) aTxt (List.replicate 50 1) 50,
    .delete (sampleEnv 10) 8 ]

/-- The header reached from `sampleHeader` by `beforeCompactOps`. -/
def beforeCompactHeader : BasketHeader :=
  (apply_ops sampleConsts sampleHeader beforeCompactOps).getD sampleHeader

/-- Add a 100-byte file (tag 8) and a 50-byte file (tag 9), delete the first,
add another 100-byte file (tag 10). -/
def overlapOps : List HeaderOp :=
  [ .add (sampleEnv 8) aTxt (List.replicate 100 0) 100,
    .add (sampleEnv 9) aTxt (List.replicate 50 1) 50,
    .delete (sampleEnv 10) 8,
    .add (sampleEnv 10) aTxt (List.replicate 100 2) 100 ]

/-- The header reached from `sampleHeader` by `overlapOps`. -/
def overlapHeader : BasketHeader :=
  (apply_ops sampleConsts sampleHeader overlapOps).getD sampleHeader

/-- The slot content that `fgsls_add_file_to_basket` writes for a file of `size`
bytes when `header` is the header at the moment of allocation. -/
def new_file_entry (c : Consts) (env : Env) (header : BasketHeader) (filename data : List Nat)
    (size : Nat) : FileEntry :=
  { tag := env.gen_tag
    filename := filename.take (c.FILENAME_SIZE - 1)
    file_size := size
    data_offset := wrapSub c.SPACE_MOD header.basket_size header.free_space
    creation_time := env.clock 1
    modification_time := env.clock 1
    access_time := env.clock 1
    data_type := c.DATA_TYPE_UNKNOWN
    permissions := 420
    is_deleted := false
    file_hash := env.hash (data.take size) }

/-- The header `sampleDeleted` after the next add (50 bytes, tag 9), with the
slot index that was used. -/
def sampleReadded : BasketHeader × Nat :=
  match add_file_update sampleConsts (sampleEnv 9) sampleDeleted.1 aTxt (List.replicate 50 1) 50 with
  | .ok r => r
  | .error _ => (sampleHeader, 0)

/-- A shelf with room for more baskets whose `used_size` lies one basket below
`2 ^ 64`, so that `used_size + BASKET_DEFAULT_SIZE` is `2 ^ 64`. -/
def nearMaxShelf : Shelf :=
  { physical_start := 4096
    config := { basket_count := 1, max_baskets := 10, used_size := 2 ^ 64 - 65536,
                total_size := 2 ^ 64 - 1, free_size := 65535 } }

/-- The sample system with `nearMaxShelf` as its only shelf. -/
def nearMaxShelfSystem : System :=
  { sampleSystem with shelves := [nearMaxShelf] }

/-- A shelf without baskets that starts 10 bytes below `2 ^ 64` and has 100 bytes
in use. -/
def nearMaxStartShelf : Shelf :=
  { physical_start := 2 ^ 64 - 10
    config := { basket_count := 0, max_baskets := 10, used_size := 100,
                total_size := 655360, free_size := 655260 } }

/-- The sample system with `nearMaxStartShelf` as its only shelf. -/
def nearMaxStartSystem : System :=
  { sampleSystem with shelves := [nearMaxStartShelf] }

/-- Tag resolution over an arbitrary header store: `locate_basket` with the call
of `_fgsls_read_basket_header` replaced by `load`. -/
def locate_basket_with (load : System → Tag → Except ErrorCode BasketHeader) (system : System)
    (file_tag : Tag) : Except ErrorCode BasketLocation :=
  match firstMatch (fun e => e.tag == file_tag) system.taver_index.entries with
  | none => .error ErrorCode.FILE_NOT_FOUND
  | some (entry_index, entry) =>
    if entry.container_type ≠ ContainerType.BASKET_FILE then .error ErrorCode.FILE_NOT_FOUND
    else
      match system.taver_index.entries.find? (fun e =>
          e.container_type == ContainerType.BASKET && e.shelf_id == entry.shelf_id &&
          e.physical_offset == entry.physical_offset) with
      | none => .error ErrorCode.CORRUPTED_DATA
      | some b =>
        match load system b.tag with
        | .error e => .error e
        | .ok header => .ok ⟨entry_index, entry, b.tag, header⟩

/-- The code of `fgsls_read_file_from_basket` over an arbitrary header store
`load`; the operation itself is the instance at `_fgsls_read_basket_header`. -/
def read_file_with (load : System → Tag → Except ErrorCode BasketHeader) (c : Consts) (env : Env)
    (p : ReadPtrs) (system : System) (file_tag : Tag) (buffer : List Nat) (size : Nat) :
    ReadResult :=
  if !p.system || !p.file_tag || !p.buffer || !p.size then
    ⟨ErrorCode.INVALID_PARAMETER, system, buffer, size, none⟩
  else if !system.is_mounted then
    ⟨ErrorCode.SYSTEM_NOT_MOUNTED, system, buffer, size, none⟩
  else
    match locate_basket_with load system file_tag with
    | .error e => ⟨e, system, buffer, size, none⟩
    | .ok loc => read_located c env system file_tag loc buffer size

/-- The code of `fgsls_delete_file_from_basket` over an arbitrary header store
`load`; the operation itself is the instance at `_fgsls_read_basket_header`. -/
def delete_file_with (load : System → Tag → Except ErrorCode BasketHeader) (c : Consts)
    (env : Env) (p : DeletePtrs) (system : System) (file_tag : Tag) : DeleteResult :=
  if !p.system || !p.file_tag then
    ⟨ErrorCode.INVALID_PARAMETER, system, none⟩
  else if !system.is_mounted then
    ⟨ErrorCode.SYSTEM_NOT_MOUNTED, system, none⟩
  else
    match locate_basket_with load system file_tag with
    | .error e => ⟨e, system, none⟩
    | .ok loc => delete_located c env system file_tag loc

/-- A header store that holds, for basket 7, the sample header with the 100-byte
file of tag 8. -/
def sampleStore : System → Tag → Except ErrorCode BasketHeader :=
  fun _ tag => if tag = 7 then .ok sampleAdded.1 else .error ErrorCode.FILE_NOT_FOUND

/-- Index entry of the file with tag 8 inside basket 7. -/
def addedFileEntry : PositionEntry :=
  { tag := 8, shelf_id := 0, physical_offset := 4096,
    container_type := ContainerType.BASKET_FILE, internal_offset := 4096, size := 0,
    last_access := 1002, access_frequency := 0, is_fragmented := false }

/-- The sample system whose index holds basket 7 and its file with tag 8. -/
def addedSystem : System :=
  { sampleSystem with
    taver_index :=
      { entries := [storedBasketEntry, addedFileEntry], max_entries := 100,
        last_update := 1003 } }

/-- The header `sampleDeleted.1` (one soft-deleted slot of 100 bytes) with a
`free_space` that lies 50 below `2 ^ 64`, a `used_space` of 40 and a
`compaction_count` that lies 1 below `2 ^ 32`. -/
def nearMaxFreeHeader : BasketHeader :=
  { sampleDeleted.1 with
    free_space := 2 ^ 64 - 50, used_space := 40, compaction_count := 2 ^ 32 - 1 }

theorem firstMatch_eq_none_iff {α : Type} (p : α → Bool) (l : List α) :
    firstMatch p l = none ↔ ∀ x ∈ l, p x = false := by
  induction l with
  | nil => simp [firstMatch]
  | cons a l ih =>
    by_cases h : p a = true
    · simp [firstMatch, h]
    · simp [firstMatch, h, ih]

theorem firstMatch_eq_some_iff {α : Type} (p : α → Bool) (l : List α) (i : Nat) (e : α) :
    firstMatch p l = some (i, e) ↔ IsFirstAt p l i e := by
  induction l generalizing i with
  | nil => simp [firstMatch, IsFirstAt]
  | cons a l ih =>
    by_cases h : p a = true
    · simp only [firstMatch, h, if_true, IsFirstAt]
      constructor
      · intro heq
        simp only [Option.some.injEq, Prod.mk.injEq] at heq
        obtain ⟨rfl, rfl⟩ := heq
        refine ⟨by simp, h, ?_⟩
        intro j x hj
        omega
      · rintro ⟨h1, _, h3⟩
        cases i with
        | zero => simp at h1; simp [h1]
        | succ i =>
          have := h3 0 a (by omega) (by simp)
          simp [h] at this
    · simp only [firstMatch, h, IsFirstAt]
      constructor
      · intro heq
        simp only [Bool.false_eq_true, if_false, Option.map_eq_some', Prod.mk.injEq,
          Prod.exists] at heq
        obtain ⟨i0, e0, h0, rfl, rfl⟩ := heq
        obtain ⟨h1, h2, h3⟩ := (ih i0).1 h0
        refine ⟨by simpa using h1, h2, ?_⟩
        intro j x hj hx
        cases j with
        | zero => simp at hx; subst hx; simpa using h
        | succ j => exact h3 j x (by omega) (by simpa using hx)
      · rintro ⟨h1, h2, h3⟩
        cases i with
        | zero => simp at h1; subst h1; exact absurd h2 h
        | succ i =>
          have hi : IsFirstAt p l i e :=
            ⟨by simpa using h1, h2, fun j x hj hx => h3 (j + 1) x (by omega) (by simpa using hx)⟩
          have := (ih i).2 hi
          simp [this]

theorem wrapAdd_of_lt (m a b : Nat) (h : a + b < m) : wrapAdd m a b = a + b :=
  Nat.mod_eq_of_lt h

theorem wrapAdd_le (m a b : Nat) : wrapAdd m a b ≤ a + b :=
  Nat.mod_le _ _

theorem create_invalid (c : Consts) (env : Env) (p : CreatePtrs) (s : System) (shelf_id : Nat)
    (h : p.system = false ∨ p.tag = false ∨ s.shelves.length ≤ shelf_id) :
    fgsls_create_basket c env p s shelf_id = ⟨ErrorCode.INVALID_PARAMETER, s, none, none⟩ := by
  unfold fgsls_create_basket
  rcases h with h | h | h <;> simp [h]

theorem create_not_mounted (c : Consts) (env : Env) (p : CreatePtrs) (s : System)
    (shelf_id : Nat) (hp : p = CreatePtrs.valid)
    (h : shelf_id < s.shelves.length) (hm : s.is_mounted = false) :
    fgsls_create_basket c env p s shelf_id = ⟨ErrorCode.SYSTEM_NOT_MOUNTED, s, none, none⟩ := by
  subst hp
  have hlt2 : ¬ s.shelves.length ≤ shelf_id := by omega
  unfold fgsls_create_basket
  simp [CreatePtrs.valid, hlt2, hm]

theorem create_shelf_full (c : Consts) (env : Env) (p : CreatePtrs) (s : System)
    (shelf_id : Nat) (shelf : Shelf) (hp : p = CreatePtrs.valid)
    (hs : s.shelves[shelf_id]? = some shelf) (hm : s.is_mounted = true)
    (h : shelf.config.max_baskets ≤ shelf.config.basket_count) :
    fgsls_create_basket c env p s shelf_id = ⟨ErrorCode.SHELF_FULL, s, none, none⟩ := by
  subst hp
  have hlt : shelf_id < s.shelves.length := (List.getElem?_eq_some_iff.1 hs).1
  have hlt2 : ¬ s.shelves.length ≤ shelf_id := by omega
  unfold fgsls_create_basket
  simp [CreatePtrs.valid, hlt2, hm, hs, h]

theorem create_disk_full (c : Consts) (env : Env) (p : CreatePtrs) (s : System)
    (shelf_id : Nat) (shelf : Shelf) (hp : p = CreatePtrs.valid)
    (hs : s.shelves[shelf_id]? = some shelf) (hm : s.is_mounted = true)
    (h1 : shelf.config.basket_count < shelf.config.max_baskets)
    (h2 : shelf.config.total_size
      < wrapAdd c.SHELF_MOD shelf.config.used_size c.BASKET_DEFAULT_SIZE) :
    fgsls_create_basket c env p s shelf_id = ⟨ErrorCode.DISK_FULL, s, none, none⟩ := by
  subst hp
  have hlt : shelf_id < s.shelves.length := (List.getElem?_eq_some_iff.1 hs).1
  have hlt2 : ¬ s.shelves.length ≤ shelf_id := by omega
  have h1n : ¬ shelf.config.max_baskets ≤ shelf.config.basket_count := by omega
  unfold fgsls_create_basket
  simp [CreatePtrs.valid, hlt2, hm, hs, h1n, h2]

theorem create_index_full (c : Consts) (env : Env) (p : CreatePtrs) (s : System)
    (shelf_id : Nat) (shelf : Shelf) (hp : p = CreatePtrs.valid)
    (hs : s.shelves[shelf_id]? = some shelf) (hm : s.is_mounted = true)
    (h1 : shelf.config.basket_count < shelf.config.max_baskets)
    (h2 : wrapAdd c.SHELF_MOD shelf.config.used_size c.BASKET_DEFAULT_SIZE
      ≤ shelf.config.total_size)
    (h3 : s.taver_index.max_entries ≤ s.taver_index.entries.length) :
    fgsls_create_basket c env p s shelf_id =
      ⟨ErrorCode.OUT_OF_MEMORY, s, some env.gen_tag,
        some (create_basket_header c env.gen_tag shelf_id (env.clock 0)
          (_fgsls_allocate_basket_space shelf))⟩ := by
  subst hp
  have hlt : shelf_id < s.shelves.length := (List.getElem?_eq_some_iff.1 hs).1
  have hlt2 : ¬ s.shelves.length ≤ shelf_id := by omega
  have h1n : ¬ shelf.config.max_baskets ≤ shelf.config.basket_count := by omega
  have h2n : ¬ shelf.config.total_size
      < wrapAdd c.SHELF_MOD shelf.config.used_size c.BASKET_DEFAULT_SIZE := by omega
  unfold fgsls_create_basket _fgsls_update_basket_position
  simp [CreatePtrs.valid, hlt2, hm, hs, h1n, h2n, h3]

theorem create_success (c : Consts) (env : Env) (p : CreatePtrs) (s : System)
    (shelf_id : Nat) (shelf : Shelf) (hp : p = CreatePtrs.valid)
    (hs : s.shelves[shelf_id]? = some shelf) (hm : s.is_mounted = true)
    (h1 : shelf.config.basket_count < shelf.config.max_baskets)
    (h2 : wrapAdd c.SHELF_MOD shelf.config.used_size c.BASKET_DEFAULT_SIZE
      ≤ shelf.config.total_size)
    (h3 : s.taver_index.entries.length < s.taver_index.max_entries) :
    fgsls_create_basket c env p s shelf_id =
      ⟨ErrorCode.SUCCESS, created_system c env s shelf_id shelf, some env.gen_tag,
        some (create_basket_header c env.gen_tag shelf_id (env.clock 0)
          (_fgsls_allocate_basket_space shelf))⟩ := by
  subst hp
  have hlt : shelf_id < s.shelves.length := (List.getElem?_eq_some_iff.1 hs).1
  have hlt2 : ¬ s.shelves.length ≤ shelf_id := by omega
  have h1n : ¬ shelf.config.max_baskets ≤ shelf.config.basket_count := by omega
  have h2n : ¬ shelf.config.total_size
      < wrapAdd c.SHELF_MOD shelf.config.used_size c.BASKET_DEFAULT_SIZE := by omega
  have h3n : ¬ s.taver_index.max_entries ≤ s.taver_index.entries.length := by omega
  unfold fgsls_create_basket _fgsls_update_basket_position
  simp [CreatePtrs.valid, hlt2, hm, hs, h1n, h2n, h3n, basket_entry, created_system]

theorem create_cases (c : Consts) (env : Env) (p : CreatePtrs) (s : System) (shelf_id : Nat) :
    ((p.system = false ∨ p.tag = false ∨ s.shelves.length ≤ shelf_id) ∧
      fgsls_create_basket c env p s shelf_id = ⟨ErrorCode.INVALID_PARAMETER, s, none, none⟩) ∨
    (p = CreatePtrs.valid ∧ shelf_id < s.shelves.length ∧ s.is_mounted = false ∧
      fgsls_create_basket c env p s shelf_id = ⟨ErrorCode.SYSTEM_NOT_MOUNTED, s, none, none⟩) ∨
    ∃ shelf, p = CreatePtrs.valid ∧ s.shelves[shelf_id]? = some shelf ∧ s.is_mounted = true ∧
      ((shelf.config.max_baskets ≤ shelf.config.basket_count ∧
          fgsls_create_basket c env p s shelf_id = ⟨ErrorCode.SHELF_FULL, s, none, none⟩) ∨
       (shelf.config.basket_count < shelf.config.max_baskets ∧
          shelf.config.total_size
            < wrapAdd c.SHELF_MOD shelf.config.used_size c.BASKET_DEFAULT_SIZE ∧
          fgsls_create_basket c env p s shelf_id = ⟨ErrorCode.DISK_FULL, s, none, none⟩) ∨
       (shelf.config.basket_count < shelf.config.max_baskets ∧
          wrapAdd c.SHELF_MOD shelf.config.used_size c.BASKET_DEFAULT_SIZE
            ≤ shelf.config.total_size ∧
          s.taver_index.max_entries ≤ s.taver_index.entries.length ∧
          fgsls_create_basket c env p s shelf_id =
            ⟨ErrorCode.OUT_OF_MEMORY, s, some env.gen_tag,
              some (create_basket_header c env.gen_tag shelf_id (env.clock 0)
                (_fgsls_allocate_basket_space shelf))⟩) ∨
       (shelf.config.basket_count < shelf.config.max_baskets ∧
          wrapAdd c.SHELF_MOD shelf.config.used_size c.BASKET_DEFAULT_SIZE
            ≤ shelf.config.total_size ∧
          s.taver_index.entries.length < s.taver_index.max_entries ∧
          fgsls_create_basket c env p s shelf_id =
            ⟨ErrorCode.SUCCESS, created_system c env s shelf_id shelf, some env.gen_tag,
              some (create_basket_header c env.gen_tag shelf_id (env.clock 0)
                (_fgsls_allocate_basket_space shelf))⟩)) := by
  by_cases hps : p.system = true
  swap
  · left
    have h : p.system = false := by simpa using hps
    exact ⟨Or.inl h, create_invalid c env p s shelf_id (Or.inl h)⟩
  by_cases hpt : p.tag = true
  swap
  · left
    have h : p.tag = false := by simpa using hpt
    exact ⟨Or.inr (Or.inl h), create_invalid c env p s shelf_id (Or.inr (Or.inl h))⟩
  have hp : p = CreatePtrs.valid := by
    cases p
    simp only [CreatePtrs.valid, CreatePtrs.mk.injEq]
    exact ⟨hps, hpt⟩
  by_cases hlt : shelf_id < s.shelves.length
  · right
    by_cases hm : s.is_mounted = true
    · right
      refine ⟨s.shelves[shelf_id], hp, List.getElem?_eq_getElem hlt, hm, ?_⟩
      have hs : s.shelves[shelf_id]? = some s.shelves[shelf_id] := List.getElem?_eq_getElem hlt
      by_cases h1 : s.shelves[shelf_id].config.basket_count < s.shelves[shelf_id].config.max_baskets
      · right
        by_cases h2 : wrapAdd c.SHELF_MOD s.shelves[shelf_id].config.used_size
            c.BASKET_DEFAULT_SIZE ≤ s.shelves[shelf_id].config.total_size
        · right
          by_cases h3 : s.taver_index.entries.length < s.taver_index.max_entries
          · right
            exact ⟨h1, h2, h3, create_success c env p s shelf_id _ hp hs hm h1 h2 h3⟩
          · left
            exact ⟨h1, h2, by omega,
              create_index_full c env p s shelf_id _ hp hs hm h1 h2 (by omega)⟩
        · left
          exact ⟨h1, by omega, create_disk_full c env p s shelf_id _ hp hs hm h1 (by omega)⟩
      · left
        exact ⟨by omega, create_shelf_full c env p s shelf_id _ hp hs hm (by omega)⟩
    · left
      have hm2 : s.is_mounted = false := by simpa using hm
      exact ⟨hp, hlt, hm2, create_not_mounted c env p s shelf_id hp hlt hm2⟩
  · left
    exact ⟨Or.inr (Or.inr (by omega)),
      create_invalid c env p s shelf_id (Or.inr (Or.inr (by omega)))⟩

/-- C7, as stated, fails. On the mounted system whose shelf 0 is `nearMaxShelf`
(`used_size = 2 ^ 64 - 65536`, `total_size = 2 ^ 64 - 1`), create basket returns
success and the shelf's `used_size` afterwards is 0, not the prior value plus
`BASKET_DEFAULT_SIZE` (which is `2 ^ 64`). On the mounted system whose shelf 0 is
`nearMaxStartShelf` (`physical_start = 2 ^ 64 - 10`, `used_size = 100`), create
basket returns success and the physical offset of the appended index entry is
90, not `physical_start + used_size`. -/
theorem C7_successful_create_counterexample :
    nearMaxShelfSystem.is_mounted = true ∧
    nearMaxShelfSystem.shelves[0]? = some nearMaxShelf ∧
    nearMaxShelf.config.used_size = 2 ^ 64 - 65536 ∧
    (fgsls_create_basket sampleConsts (sampleEnv 7) CreatePtrs.valid nearMaxShelfSystem 0).code
      = ErrorCode.SUCCESS ∧
    (fgsls_create_basket sampleConsts (sampleEnv 7) CreatePtrs.valid
      nearMaxShelfSystem 0).system.shelves.map (fun sh => sh.config.used_size) = [0] ∧
    0 ≠ nearMaxShelf.config.used_size + sampleConsts.BASKET_DEFAULT_SIZE ∧
    nearMaxStartSystem.is_mounted = true ∧
    nearMaxStartSystem.shelves[0]? = some nearMaxStartShelf ∧
    (fgsls_create_basket sampleConsts (sampleEnv 7) CreatePtrs.valid nearMaxStartSystem 0).code
      = ErrorCode.SUCCESS ∧
    (fgsls_create_basket sampleConsts (sampleEnv 7) CreatePtrs.valid
      nearMaxStartSystem 0).system.taver_index.entries.map
        (fun e => e.physical_offset) = [90] ∧
    90 ≠ nearMaxStartShelf.physical_start + nearMaxStartShelf.config.used_size := by
  decide

/-- C7 (amended). Successful create: when `fgsls_create_basket` on shelf
`shelf_id` returns success and, for that shelf, `used_size + BASKET_DEFAULT_SIZE`
stays below the modulus of the shelf size fields and `physical_start + used_size`
below `2 ^ 64`, then the system was mounted, the shelf exists, its `basket_count`
grew by one, its `used_size` grew by `BASKET_DEFAULT_SIZE`, its `free_size` is
`total_size` minus the new `used_size` (which does not exceed `total_size`), its
other fields and all other shelves are unchanged, and the index gained exactly
one entry, appended last, of kind `BASKET` with the returned tag, shelf id
`shelf_id` and physical offset `physical_start + used_size` (before the call). -/
theorem C7_successful_create (c : Consts) (env : Env) (p : CreatePtrs) (s : System)
    (shelf_id : Nat)
    (hfit : ∀ shelf, s.shelves[shelf_id]? = some shelf →
      shelf.config.used_size + c.BASKET_DEFAULT_SIZE < c.SHELF_MOD ∧
      shelf.physical_start + shelf.config.used_size < 2 ^ 64)
    (h : (fgsls_create_basket c env p s shelf_id).code = ErrorCode.SUCCESS) :
    s.is_mounted = true ∧
    ∃ shelf shelf1 e,
      s.shelves[shelf_id]? = some shelf ∧
      (fgsls_create_basket c env p s shelf_id).system.shelves[shelf_id]? = some shelf1 ∧
      shelf1.config.basket_count = shelf.config.basket_count + 1 ∧
      shelf1.config.used_size = shelf.config.used_size + c.BASKET_DEFAULT_SIZE ∧
      shelf1.config.used_size ≤ shelf1.config.total_size ∧
      shelf1.config.free_size = shelf1.config.total_size - shelf1.config.used_size ∧
      shelf1.config.total_size = shelf.config.total_size ∧
      shelf1.config.max_baskets = shelf.config.max_baskets ∧
      shelf1.physical_start = shelf.physical_start ∧
      (fgsls_create_basket c env p s shelf_id).system.shelves.length = s.shelves.length ∧
      (∀ j, j ≠ shelf_id →
        (fgsls_create_basket c env p s shelf_id).system.shelves[j]? = s.shelves[j]?) ∧
      (fgsls_create_basket c env p s shelf_id).system.taver_index.entries =
        s.taver_index.entries ++ [e] ∧
      e.container_type = ContainerType.BASKET ∧
      (fgsls_create_basket c env p s shelf_id).tag = some e.tag ∧
      e.shelf_id = shelf_id ∧
      e.physical_offset = shelf.physical_start + shelf.config.used_size := by
  rcases create_cases c env p s shelf_id with ⟨_, hr⟩ | ⟨_, _, _, hr⟩ | ⟨shelf, _, hs, hm, hcase⟩
  · rw [hr] at h; cases h
  · rw [hr] at h; cases h
  · rcases hcase with ⟨_, hr⟩ | ⟨_, _, hr⟩ | ⟨_, _, _, hr⟩ | ⟨h1, h2, h3, hr⟩
    · rw [hr] at h; cases h
    · rw [hr] at h; cases h
    · rw [hr] at h; cases h
    · have hlt : shelf_id < s.shelves.length := (List.getElem?_eq_some_iff.1 hs).1
      obtain ⟨hf1, hf2⟩ := hfit shelf hs
      have hw : wrapAdd c.SHELF_MOD shelf.config.used_size c.BASKET_DEFAULT_SIZE
          = shelf.config.used_size + c.BASKET_DEFAULT_SIZE := wrapAdd_of_lt _ _ _ hf1
      have ho : _fgsls_allocate_basket_space shelf
          = shelf.physical_start + shelf.config.used_size := wrapAdd_of_lt _ _ _ hf2
      rw [hw] at h2
      refine ⟨hm, shelf,
        { shelf with config :=
          { shelf.config with
            basket_count := shelf.config.basket_count + 1
            used_size := shelf.config.used_size + c.BASKET_DEFAULT_SIZE
            free_size := shelf.config.total_size -
              (shelf.config.used_size + c.BASKET_DEFAULT_SIZE) } },
        basket_entry c env shelf_id shelf, hs, ?_⟩
      rw [hr]
      refine ⟨?_, rfl, rfl, h2, rfl, rfl, rfl, rfl, ?_, ?_, rfl, rfl, rfl, rfl, ho⟩
      · simp [created_system, hlt, hw]
      · simp [created_system]
      · intro j hj
        simp [created_system, List.getElem?_set, Ne.symm hj]

/-- C8, evaluated. On the mounted system whose shelf 0 is `nearMaxShelf`
(`basket_count = 1 < max_baskets = 10`, `used_size = 2 ^ 64 - 65536`,
`total_size = 2 ^ 64 - 1`), the sum `used_size + BASKET_DEFAULT_SIZE` exceeds
`total_size`, yet `fgsls_create_basket` does not return DiskFull: the sum of the
guard wraps around to 0, the call returns success and leaves `used_size = 0` and
`free_size = total_size`. -/
theorem C8_disk_full_guard_wraps :
    nearMaxShelfSystem.is_mounted = true ∧
    nearMaxShelfSystem.shelves[0]? = some nearMaxShelf ∧
    nearMaxShelf.config.basket_count < nearMaxShelf.config.max_baskets ∧
    nearMaxShelf.config.used_size + sampleConsts.BASKET_DEFAULT_SIZE
      > nearMaxShelf.config.total_size ∧
    (fgsls_create_basket sampleConsts (sampleEnv 7) CreatePtrs.valid nearMaxShelfSystem 0).code
      ≠ ErrorCode.DISK_FULL ∧
    (fgsls_create_basket sampleConsts (sampleEnv 7) CreatePtrs.valid nearMaxShelfSystem 0).code
      = ErrorCode.SUCCESS ∧
    (fgsls_create_basket sampleConsts (sampleEnv 7) CreatePtrs.valid
      nearMaxShelfSystem 0).system.shelves.map
        (fun sh => (sh.config.used_size, sh.config.free_size)) = [(0, 2 ^ 64 - 1)] := by
  decide

/-- The capacity guards of `fgsls_create_basket` on a mounted system, an existing
shelf and non-null pointers: ShelfFull when `basket_count >= max_baskets`;
DiskFull when `basket_count < max_baskets`,
`used_size + BASKET_DEFAULT_SIZE > total_size` and the sum stays below
`SHELF_MOD`; neither of the two when `basket_count < max_baskets` and
`used_size + BASKET_DEFAULT_SIZE <= total_size`. -/
theorem create_capacity_errors (c : Consts) (env : Env) (s : System) (shelf_id : Nat)
    (shelf : Shelf) (hm : s.is_mounted = true) (hs : s.shelves[shelf_id]? = some shelf) :
    (shelf.config.basket_count ≥ shelf.config.max_baskets →
      (fgsls_create_basket c env CreatePtrs.valid s shelf_id).code = ErrorCode.SHELF_FULL) ∧
    (shelf.config.basket_count < shelf.config.max_baskets →
      shelf.config.used_size + c.BASKET_DEFAULT_SIZE > shelf.config.total_size →
      shelf.config.used_size + c.BASKET_DEFAULT_SIZE < c.SHELF_MOD →
      (fgsls_create_basket c env CreatePtrs.valid s shelf_id).code = ErrorCode.DISK_FULL) ∧
    (shelf.config.basket_count < shelf.config.max_baskets →
      shelf.config.used_size + c.BASKET_DEFAULT_SIZE ≤ shelf.config.total_size →
      (fgsls_create_basket c env CreatePtrs.valid s shelf_id).code ≠ ErrorCode.SHELF_FULL ∧
      (fgsls_create_basket c env CreatePtrs.valid s shelf_id).code ≠ ErrorCode.DISK_FULL) := by
  refine ⟨?_, ?_, ?_⟩
  · intro h
    rw [create_shelf_full c env _ s shelf_id shelf rfl hs hm h]
  · intro h1 h2 h3
    have hw := wrapAdd_of_lt _ _ _ h3
    rw [create_disk_full c env _ s shelf_id shelf rfl hs hm h1 (by omega)]
  · intro h1 h2
    have hw := wrapAdd_le c.SHELF_MOD shelf.config.used_size c.BASKET_DEFAULT_SIZE
    have h2w : wrapAdd c.SHELF_MOD shelf.config.used_size c.BASKET_DEFAULT_SIZE
        ≤ shelf.config.total_size := by omega
    by_cases h3 : s.taver_index.entries.length < s.taver_index.max_entries
    · rw [create_success c env _ s shelf_id shelf rfl hs hm h1 h2w h3]
      exact ⟨by simp, by simp⟩
    · rw [create_index_full c env _ s shelf_id shelf rfl hs hm h1 h2w (by omega)]
      exact ⟨by simp, by simp⟩

/-- C9. Failed create leaves no partial state: whenever `fgsls_create_basket`
returns an error, the error is one of InvalidParameter, SystemNotMounted,
ShelfFull, DiskFull, OutOfMemory and the whole system state (shelves, position
index, quarantine, counters, journal) is the state before the call. -/
theorem C9_failed_create_keeps_state (c : Consts) (env : Env) (p : CreatePtrs) (s : System)
    (shelf_id : Nat)
    (h : (fgsls_create_basket c env p s shelf_id).code ≠ ErrorCode.SUCCESS) :
    (fgsls_create_basket c env p s shelf_id).system = s ∧
    ((fgsls_create_basket c env p s shelf_id).code = ErrorCode.INVALID_PARAMETER ∨
     (fgsls_create_basket c env p s shelf_id).code = ErrorCode.SYSTEM_NOT_MOUNTED ∨
     (fgsls_create_basket c env p s shelf_id).code = ErrorCode.SHELF_FULL ∨
     (fgsls_create_basket c env p s shelf_id).code = ErrorCode.DISK_FULL ∨
     (fgsls_create_basket c env p s shelf_id).code = ErrorCode.OUT_OF_MEMORY) := by
  rcases create_cases c env p s shelf_id with ⟨_, hr⟩ | ⟨_, _, _, hr⟩ | ⟨shelf, _, hs, hm, hcase⟩
  · rw [hr]; simp
  · rw [hr]; simp
  · rcases hcase with ⟨_, hr⟩ | ⟨_, _, hr⟩ | ⟨_, _, _, hr⟩ | ⟨h1, h2, h3, hr⟩
    · rw [hr]; simp
    · rw [hr]; simp
    · rw [hr]; simp
    · rw [hr] at h; exact absurd rfl h

theorem read_basket_header_ok (c : Consts) (s : System) (tag : Tag) (h : BasketHeader)
    (hr : _fgsls_read_basket_header c s tag = .ok h) :
    h.file_count = 0 ∧ h.deleted_count = 0 ∧ h.used_space = 0 ∧ h.free_space = 0 ∧
    h.basket_size = c.BASKET_DEFAULT_SIZE ∧
    h.files = List.replicate c.BASKET_MAX_FILES zeroFileEntry := by
  unfold _fgsls_read_basket_header at hr
  split at hr
  · cases hr
  · cases hr
    simp

theorem read_basket_header_error (c : Consts) (s : System) (tag : Tag) (e : ErrorCode)
    (hr : _fgsls_read_basket_header c s tag = .error e) : e = ErrorCode.FILE_NOT_FOUND := by
  unfold _fgsls_read_basket_header at hr
  split at hr
  · cases hr; rfl
  · cases hr

theorem add_file_update_no_space (c : Consts) (env : Env) (h : BasketHeader)
    (filename data : List Nat) (size : Nat) (hn : size ≠ 0) (h0 : h.free_space = 0)
    (hd : h.deleted_count = 0) :
    add_file_update c env h filename data size = .error ErrorCode.BASKET_FULL := by
  have hlt : h.free_space < size := by omega
  unfold add_file_update
  by_cases hc : h.file_count ≥ c.BASKET_MAX_FILES
  · simp [hc]
  · simp [hc, hlt, _fgsls_compact_basket, hd]

theorem add_invalid (c : Consts) (env : Env) (p : AddPtrs) (s : System) (basket_tag : Tag)
    (filename data : List Nat) (size : Nat)
    (h : p.system = false ∨ p.basket_tag = false ∨ p.filename = false ∨ p.data = false ∨
      p.file_tag = false ∨ size = 0) :
    fgsls_add_file_to_basket c env p s basket_tag filename data size
      = ⟨ErrorCode.INVALID_PARAMETER, s, none, none⟩ := by
  unfold fgsls_add_file_to_basket
  rcases h with h | h | h | h | h | h <;> simp [h]

theorem add_ptrs_cases (p : AddPtrs) (size : Nat) :
    (p.system = false ∨ p.basket_tag = false ∨ p.filename = false ∨ p.data = false ∨
      p.file_tag = false ∨ size = 0) ∨ (p = AddPtrs.valid ∧ size ≠ 0) := by
  by_cases h0 : size = 0
  · exact Or.inl (by simp [h0])
  · rcases p with ⟨a, b, d, e, f⟩
    cases a <;> cases b <;> cases d <;> cases e <;> cases f <;> simp [AddPtrs.valid, h0]

/-- With the dummy header of `_fgsls_read_basket_header`, `fgsls_add_file_to_basket`
never returns success and never changes the system. -/
theorem add_file_never_succeeds (c : Consts) (env : Env) (p : AddPtrs) (s : System)
    (basket_tag : Tag) (filename data : List Nat) (size : Nat) :
    (fgsls_add_file_to_basket c env p s basket_tag filename data size).code ≠ ErrorCode.SUCCESS ∧
    (fgsls_add_file_to_basket c env p s basket_tag filename data size).system = s ∧
    (fgsls_add_file_to_basket c env p s basket_tag filename data size).written = none := by
  rcases add_ptrs_cases p size with hinv | ⟨hp, h1⟩
  · rw [add_invalid c env p s basket_tag filename data size hinv]
    exact ⟨by simp, rfl, rfl⟩
  subst hp
  unfold fgsls_add_file_to_basket
  by_cases h2 : s.is_mounted = true
  swap
  · simp [AddPtrs.valid, h1, h2]
  by_cases h3 : size > c.BASKET_MAX_FILE_SIZE
  · simp [AddPtrs.valid, h1, h2, h3]
  by_cases h4 : filename.length ≥ c.MAX_FILENAME_LENGTH
  · simp [AddPtrs.valid, h1, h2, h3, h4]
  simp only [AddPtrs.valid, h1, h2, h3, h4, if_false, Bool.not_true, Bool.false_eq_true,
    Bool.or_self, decide_False]
  cases hr : _fgsls_read_basket_header c s basket_tag with
  | error e =>
    have he := read_basket_header_error c s basket_tag e hr
    subst he
    simp
  | ok h =>
    obtain ⟨_, hd, _, h0, _, _⟩ := read_basket_header_ok c s basket_tag h hr
    simp [add_file_update_no_space c env h filename data size h1 h0 hd]

/-- C1. Create then add, evaluated on the sample system: create on shelf 0
succeeds and returns tag 7, the index has room for more than two further
entries, and adding the 100-byte file `"a.txt"` to basket 7 returns BasketFull,
stores no file tag and hands no header to `_fgsls_write_basket_header`. -/
theorem C1_create_then_add_returns_basket_full :
    (fgsls_create_basket sampleConsts (sampleEnv 7) CreatePtrs.valid sampleSystem 0).code
      = ErrorCode.SUCCESS ∧
    (fgsls_create_basket sampleConsts (sampleEnv 7) CreatePtrs.valid sampleSystem 0).tag
      = some 7 ∧
    (fgsls_create_basket sampleConsts (sampleEnv 7) CreatePtrs.valid
      sampleSystem 0).system.taver_index.entries.length + 2 ≤
      (fgsls_create_basket sampleConsts (sampleEnv 7) CreatePtrs.valid
        sampleSystem 0).system.taver_index.max_entries ∧
    (fgsls_add_file_to_basket sampleConsts (sampleEnv 8) AddPtrs.valid
      (fgsls_create_basket sampleConsts (sampleEnv 7) CreatePtrs.valid sampleSystem 0).system
      7 aTxt (List.replicate 100 0) 100).code = ErrorCode.BASKET_FULL ∧
    (fgsls_add_file_to_basket sampleConsts (sampleEnv 8) AddPtrs.valid
      (fgsls_create_basket sampleConsts (sampleEnv 7) CreatePtrs.valid sampleSystem 0).system
      7 aTxt (List.replicate 100 0) 100).file_tag = none ∧
    (fgsls_add_file_to_basket sampleConsts (sampleEnv 8) AddPtrs.valid
      (fgsls_create_basket sampleConsts (sampleEnv 7) CreatePtrs.valid sampleSystem 0).system
      7 aTxt (List.replicate 100 0) 100).written = none := by
  decide

/-- Witness of C7 on the sample system. -/
theorem C7_successful_create_witness :
    (fgsls_create_basket sampleConsts (sampleEnv 7) CreatePtrs.valid sampleSystem 0).code
      = ErrorCode.SUCCESS ∧
    sampleShelf.config.used_size + sampleConsts.BASKET_DEFAULT_SIZE < sampleConsts.SHELF_MOD ∧
    sampleShelf.physical_start + sampleShelf.config.used_size < 2 ^ 64 ∧
    ∃ (shelf shelf1 : Shelf) (e : PositionEntry),
      sampleSystem.shelves[0]? = some shelf ∧
      (fgsls_create_basket sampleConsts (sampleEnv 7) CreatePtrs.valid
        sampleSystem 0).system.shelves[0]? = some shelf1 ∧
      shelf1.config.basket_count = 1 ∧ shelf1.config.used_size = 65536 ∧
      e.physical_offset = 4096 := by
  refine ⟨by decide, by decide, by decide, ?_⟩
  obtain ⟨_, shelf, shelf1, e, hs, hs1, h1, h2, _, _, _, _, _, _, _, _, _, _, _, h3⟩ :=
    C7_successful_create sampleConsts (sampleEnv 7) CreatePtrs.valid sampleSystem 0
      (fun shelf hs => by
        have : shelf = sampleShelf := by
          simp only [sampleSystem, List.getElem?_cons_zero, Option.some.injEq] at hs
          exact hs.symm
        subst this
        exact ⟨by decide, by decide⟩)
      (by decide)
  have hsh : shelf = sampleShelf := by
    simp only [sampleSystem, List.getElem?_cons_zero, Option.some.injEq] at hs
    exact hs.symm
  subst hsh
  exact ⟨sampleShelf, shelf1, e, hs, hs1, h1, h2, h3⟩

/-- Witness of C9: create on a system whose index is full fails with
OutOfMemory after the header was built, and the state is untouched. -/
theorem C9_failed_create_keeps_state_witness :
    (fgsls_create_basket sampleConsts (sampleEnv 7) CreatePtrs.valid fullIndexSystem 0).code
      = ErrorCode.OUT_OF_MEMORY ∧
    (fgsls_create_basket sampleConsts (sampleEnv 7) CreatePtrs.valid fullIndexSystem 0).system
      = fullIndexSystem :=
  ⟨by decide,
   (C9_failed_create_keeps_state sampleConsts (sampleEnv 7) CreatePtrs.valid fullIndexSystem 0
     (by decide)).1⟩

theorem read_invalid (c : Consts) (env : Env) (p : ReadPtrs) (s : System) (t : Tag)
    (buffer : List Nat) (size : Nat)
    (h : p.system = false ∨ p.file_tag = false ∨ p.buffer = false ∨ p.size = false) :
    fgsls_read_file_from_basket c env p s t buffer size
      = ⟨ErrorCode.INVALID_PARAMETER, s, buffer, size, none⟩ := by
  unfold fgsls_read_file_from_basket
  rcases h with h | h | h | h <;> simp [h]

theorem read_ptrs_cases (p : ReadPtrs) :
    (p.system = false ∨ p.file_tag = false ∨ p.buffer = false ∨ p.size = false) ∨
      p = ReadPtrs.valid := by
  rcases p with ⟨a, b, d, e⟩
  cases a <;> cases b <;> cases d <;> cases e <;> simp [ReadPtrs.valid]

theorem delete_invalid (c : Consts) (env : Env) (p : DeletePtrs) (s : System) (t : Tag)
    (h : p.system = false ∨ p.file_tag = false) :
    fgsls_delete_file_from_basket c env p s t = ⟨ErrorCode.INVALID_PARAMETER, s, none⟩ := by
  unfold fgsls_delete_file_from_basket
  rcases h with h | h <;> simp [h]

theorem delete_ptrs_cases (p : DeletePtrs) :
    (p.system = false ∨ p.file_tag = false) ∨ p = DeletePtrs.valid := by
  rcases p with ⟨a, b⟩
  cases a <;> cases b <;> simp [DeletePtrs.valid]

theorem create_ptrs_cases (p : CreatePtrs) :
    (p.system = false ∨ p.tag = false) ∨ p = CreatePtrs.valid := by
  rcases p with ⟨a, b⟩
  cases a <;> cases b <;> simp [CreatePtrs.valid]

theorem add_not_mounted (c : Consts) (env : Env) (s : System) (basket_tag : Tag)
    (filename data : List Nat) (size : Nat) (hn : size ≠ 0) (hm : s.is_mounted = false) :
    fgsls_add_file_to_basket c env AddPtrs.valid s basket_tag filename data size
      = ⟨ErrorCode.SYSTEM_NOT_MOUNTED, s, none, none⟩ := by
  unfold fgsls_add_file_to_basket
  simp [AddPtrs.valid, hn, hm]

theorem read_not_mounted (c : Consts) (env : Env) (s : System) (t : Tag) (buffer : List Nat)
    (size : Nat) (hm : s.is_mounted = false) :
    fgsls_read_file_from_basket c env ReadPtrs.valid s t buffer size
      = ⟨ErrorCode.SYSTEM_NOT_MOUNTED, s, buffer, size, none⟩ := by
  unfold fgsls_read_file_from_basket
  simp [ReadPtrs.valid, hm]

theorem delete_not_mounted (c : Consts) (env : Env) (s : System) (t : Tag)
    (hm : s.is_mounted = false) :
    fgsls_delete_file_from_basket c env DeletePtrs.valid s t
      = ⟨ErrorCode.SYSTEM_NOT_MOUNTED, s, none⟩ := by
  unfold fgsls_delete_file_from_basket
  simp [DeletePtrs.valid, hm]

/-- C10, as stated, fails: on the unmounted sample system, create with a shelf id
that is not below `shelf_count`, add with size 0, and read with a null buffer
pointer return InvalidParameter. -/
theorem C10_mount_gate_counterexample :
    unmountedSystem.is_mounted = false ∧
    (fgsls_create_basket sampleConsts (sampleEnv 7) CreatePtrs.valid unmountedSystem 1).code
      = ErrorCode.INVALID_PARAMETER ∧
    (fgsls_add_file_to_basket sampleConsts (sampleEnv 8) AddPtrs.valid unmountedSystem 7 aTxt
      [] 0).code = ErrorCode.INVALID_PARAMETER ∧
    (fgsls_read_file_from_basket sampleConsts (sampleEnv 8) ⟨true, true, false, true⟩
      unmountedSystem 7 [] 0).code = ErrorCode.INVALID_PARAMETER := by
  decide

/-- C10 (amended). Mount gate: on a system that is not mounted, each of create
basket, add file, read file and delete file leaves the state unchanged and
returns SystemNotMounted when its arguments pass the parameter guard that
precedes the mount test (no pointer argument is null; for create basket the
shelf id is below `shelf_count`; for add file the size is not 0), and
InvalidParameter when they do not. -/
theorem C10_mount_gate (c : Consts) (env : Env) (s : System) (hm : s.is_mounted = false) :
    (∀ (p : CreatePtrs) (shelf_id : Nat),
      (fgsls_create_basket c env p s shelf_id).system = s ∧
      (p.system = true ∧ p.tag = true ∧ shelf_id < s.shelves.length →
        (fgsls_create_basket c env p s shelf_id).code = ErrorCode.SYSTEM_NOT_MOUNTED) ∧
      (p.system = false ∨ p.tag = false ∨ s.shelves.length ≤ shelf_id →
        (fgsls_create_basket c env p s shelf_id).code = ErrorCode.INVALID_PARAMETER)) ∧
    (∀ (p : AddPtrs) (basket_tag : Tag) (filename data : List Nat) (size : Nat),
      (fgsls_add_file_to_basket c env p s basket_tag filename data size).system = s ∧
      (p.system = true ∧ p.basket_tag = true ∧ p.filename = true ∧ p.data = true ∧
          p.file_tag = true ∧ size ≠ 0 →
        (fgsls_add_file_to_basket c env p s basket_tag filename data size).code
          = ErrorCode.SYSTEM_NOT_MOUNTED) ∧
      (p.system = false ∨ p.basket_tag = false ∨ p.filename = false ∨ p.data = false ∨
          p.file_tag = false ∨ size = 0 →
        (fgsls_add_file_to_basket c env p s basket_tag filename data size).code
          = ErrorCode.INVALID_PARAMETER)) ∧
    (∀ (p : ReadPtrs) (file_tag : Tag) (buffer : List Nat) (size : Nat),
      (fgsls_read_file_from_basket c env p s file_tag buffer size).system = s ∧
      (p.system = true ∧ p.file_tag = true ∧ p.buffer = true ∧ p.size = true →
        (fgsls_read_file_from_basket c env p s file_tag buffer size).code
          = ErrorCode.SYSTEM_NOT_MOUNTED) ∧
      (p.system = false ∨ p.file_tag = false ∨ p.buffer = false ∨ p.size = false →
        (fgsls_read_file_from_basket c env p s file_tag buffer size).code
          = ErrorCode.INVALID_PARAMETER)) ∧
    (∀ (p : DeletePtrs) (file_tag : Tag),
      (fgsls_delete_file_from_basket c env p s file_tag).system = s ∧
      (p.system = true ∧ p.file_tag = true →
        (fgsls_delete_file_from_basket c env p s file_tag).code
          = ErrorCode.SYSTEM_NOT_MOUNTED) ∧
      (p.system = false ∨ p.file_tag = false →
        (fgsls_delete_file_from_basket c env p s file_tag).code
          = ErrorCode.INVALID_PARAMETER)) := by
  refine ⟨?_, ?_, ?_, ?_⟩
  · intro p shelf_id
    refine ⟨?_, ?_, ?_⟩
    · rcases create_cases c env p s shelf_id with
        ⟨_, hr⟩ | ⟨_, _, _, hr⟩ | ⟨shelf, _, _, hm2, _⟩
      · rw [hr]
      · rw [hr]
      · rw [hm] at hm2; cases hm2
    · rintro ⟨h1, h2, h3⟩
      have hp : p = CreatePtrs.valid := by
        rcases create_ptrs_cases p with h | h
        · rcases h with h | h
          · rw [h1] at h; cases h
          · rw [h2] at h; cases h
        · exact h
      rw [create_not_mounted c env p s shelf_id hp h3 hm]
    · intro h
      rw [create_invalid c env p s shelf_id h]
  · intro p basket_tag filename data size
    rcases add_ptrs_cases p size with hinv | ⟨hp, h0⟩
    · rw [add_invalid c env p s basket_tag filename data size hinv]
      refine ⟨rfl, ?_, fun _ => rfl⟩
      rintro ⟨h1, h2, h3, h4, h5, h6⟩
      rcases hinv with h | h | h | h | h | h
      · rw [h1] at h; cases h
      · rw [h2] at h; cases h
      · rw [h3] at h; cases h
      · rw [h4] at h; cases h
      · rw [h5] at h; cases h
      · exact absurd h h6
    · subst hp
      rw [add_not_mounted c env s basket_tag filename data size h0 hm]
      refine ⟨rfl, fun _ => rfl, ?_⟩
      intro h
      rcases h with h | h | h | h | h | h
      · cases h
      · cases h
      · cases h
      · cases h
      · cases h
      · exact absurd h h0
  · intro p file_tag buffer size
    rcases read_ptrs_cases p with hinv | hp
    · rw [read_invalid c env p s file_tag buffer size hinv]
      refine ⟨rfl, ?_, fun _ => rfl⟩
      rintro ⟨h1, h2, h3, h4⟩
      rcases hinv with h | h | h | h
      · rw [h1] at h; cases h
      · rw [h2] at h; cases h
      · rw [h3] at h; cases h
      · rw [h4] at h; cases h
    · subst hp
      rw [read_not_mounted c env s file_tag buffer size hm]
      refine ⟨rfl, fun _ => rfl, ?_⟩
      intro h
      rcases h with h | h | h | h <;> cases h
  · intro p file_tag
    rcases delete_ptrs_cases p with hinv | hp
    · rw [delete_invalid c env p s file_tag hinv]
      refine ⟨rfl, ?_, fun _ => rfl⟩
      rintro ⟨h1, h2⟩
      rcases hinv with h | h
      · rw [h1] at h; cases h
      · rw [h2] at h; cases h
    · subst hp
      rw [delete_not_mounted c env s file_tag hm]
      refine ⟨rfl, fun _ => rfl, ?_⟩
      intro h
      rcases h with h | h <;> cases h

/-- Witness of C10 on the unmounted sample system: create on shelf 0 and a
delete with non-null pointers meet the mount gate, add with size 0 and a read
with a null buffer pointer are rejected by the parameter guard. -/
theorem C10_mount_gate_witness :
    unmountedSystem.is_mounted = false ∧
    (fgsls_create_basket sampleConsts (sampleEnv 7) CreatePtrs.valid unmountedSystem 0).code
      = ErrorCode.SYSTEM_NOT_MOUNTED ∧
    (fgsls_add_file_to_basket sampleConsts (sampleEnv 7) AddPtrs.valid unmountedSystem 7 aTxt
      [] 0).code = ErrorCode.INVALID_PARAMETER ∧
    (fgsls_read_file_from_basket sampleConsts (sampleEnv 7) ⟨true, true, false, true⟩
      unmountedSystem 7 [] 0).code = ErrorCode.INVALID_PARAMETER ∧
    (fgsls_delete_file_from_basket sampleConsts (sampleEnv 7) DeletePtrs.valid
      unmountedSystem 7).code = ErrorCode.SYSTEM_NOT_MOUNTED :=
  ⟨by decide,
   ((C10_mount_gate sampleConsts (sampleEnv 7) unmountedSystem (by decide)).1
      CreatePtrs.valid 0).2.1 (by decide),
   ((C10_mount_gate sampleConsts (sampleEnv 7) unmountedSystem (by decide)).2.1
      AddPtrs.valid 7 aTxt [] 0).2.2 (by decide),
   ((C10_mount_gate sampleConsts (sampleEnv 7) unmountedSystem (by decide)).2.2.1
      ⟨true, true, false, true⟩ 7 [] 0).2.2 (by decide),
   ((C10_mount_gate sampleConsts (sampleEnv 7) unmountedSystem (by decide)).2.2.2
      DeletePtrs.valid 7).2.1 (by decide)⟩

theorem locate_basket_error (c : Consts) (s : System) (t : Tag) (e : ErrorCode)
    (h : locate_basket c s t = .error e) :
    e = ErrorCode.FILE_NOT_FOUND ∨ e = ErrorCode.CORRUPTED_DATA := by
  unfold locate_basket at h
  split at h
  · cases h; exact Or.inl rfl
  · split at h
    · cases h; exact Or.inl rfl
    · split at h
      · cases h; exact Or.inr rfl
      · split at h
        · rename_i e2 hr
          cases h
          exact Or.inl (read_basket_header_error c s _ _ hr)
        · cases h

theorem locate_basket_ok (c : Consts) (s : System) (t : Tag) (loc : BasketLocation)
    (h : locate_basket c s t = .ok loc) :
    IsFirstAt (fun e => e.tag == t) s.taver_index.entries loc.entry_index loc.entry ∧
    loc.entry.container_type = ContainerType.BASKET_FILE ∧
    _fgsls_read_basket_header c s loc.basket_tag = .ok loc.header := by
  unfold locate_basket at h
  split at h
  · cases h
  · rename_i i e hf
    split at h
    · cases h
    · rename_i hk
      split at h
      · cases h
      · split at h
        · cases h
        · rename_i hdr hr
          cases h
          exact ⟨(firstMatch_eq_some_iff _ _ _ _).1 hf, by simpa using hk, hr⟩

theorem mark_deleted_shelf_id (c : Consts) (env : Env) (h : BasketHeader) (i : Nat)
    (f : FileEntry) : (mark_deleted c env h i f).shelf_id = h.shelf_id := rfl

theorem delete_located_cases (c : Consts) (env : Env) (s : System) (t : Tag)
    (loc : BasketLocation) :
    (find_file_entry loc.header t = none ∧
      delete_located c env s t loc = ⟨ErrorCode.FILE_NOT_FOUND, s, none⟩) ∨
    (∃ i f, find_file_entry loc.header t = some (i, f) ∧
      delete_located c env s t loc =
        ⟨ErrorCode.SUCCESS, deleted_system c env s t loc f,
          some (mark_deleted c env loc.header i f)⟩) := by
  cases hf : find_file_entry loc.header t with
  | none =>
    left
    refine ⟨rfl, ?_⟩
    unfold delete_located delete_file_update
    simp [hf]
  | some r =>
    right
    obtain ⟨i, f⟩ := r
    refine ⟨i, f, rfl, ?_⟩
    unfold delete_located delete_file_update
    simp [hf, deleted_system, mark_deleted_shelf_id]

theorem delete_cases (c : Consts) (env : Env) (p : DeletePtrs) (s : System) (t : Tag) :
    ((p.system = false ∨ p.file_tag = false) ∧
      fgsls_delete_file_from_basket c env p s t = ⟨ErrorCode.INVALID_PARAMETER, s, none⟩) ∨
    (p = DeletePtrs.valid ∧ s.is_mounted = false ∧
      fgsls_delete_file_from_basket c env p s t = ⟨ErrorCode.SYSTEM_NOT_MOUNTED, s, none⟩) ∨
    (p = DeletePtrs.valid ∧ s.is_mounted = true ∧ ∃ e, locate_basket c s t = .error e ∧
      fgsls_delete_file_from_basket c env p s t = ⟨e, s, none⟩) ∨
    (p = DeletePtrs.valid ∧ s.is_mounted = true ∧ ∃ loc, locate_basket c s t = .ok loc ∧
      ((find_file_entry loc.header t = none ∧
          fgsls_delete_file_from_basket c env p s t = ⟨ErrorCode.FILE_NOT_FOUND, s, none⟩) ∨
       (∃ i f, find_file_entry loc.header t = some (i, f) ∧
          fgsls_delete_file_from_basket c env p s t =
            ⟨ErrorCode.SUCCESS, deleted_system c env s t loc f,
              some (mark_deleted c env loc.header i f)⟩))) := by
  rcases delete_ptrs_cases p with hinv | hp
  · exact Or.inl ⟨hinv, delete_invalid c env p s t hinv⟩
  right
  subst hp
  by_cases hm : s.is_mounted = true
  · right
    cases hl : locate_basket c s t with
    | error e =>
      left
      refine ⟨rfl, hm, e, rfl, ?_⟩
      unfold fgsls_delete_file_from_basket
      simp [DeletePtrs.valid, hm, hl]
    | ok loc =>
      right
      refine ⟨rfl, hm, loc, rfl, ?_⟩
      have hd : fgsls_delete_file_from_basket c env DeletePtrs.valid s t
          = delete_located c env s t loc := by
        unfold fgsls_delete_file_from_basket
        simp [DeletePtrs.valid, hm, hl]
      rw [hd]
      exact delete_located_cases c env s t loc
  · left
    have hm2 : s.is_mounted = false := by simpa using hm
    exact ⟨rfl, hm2, delete_not_mounted c env s t hm2⟩

theorem take_zero_filled (buffer : List Nat) (n : Nat) :
    (zero_filled buffer n).take n = List.replicate n 0 := by
  unfold zero_filled
  rw [List.take_append_of_le_length (by simp)]
  simp

theorem read_located_cases (c : Consts) (env : Env) (s : System) (t : Tag) (loc : BasketLocation)
    (buffer : List Nat) (size : Nat) :
    (find_file_entry loc.header t = none ∧
      read_located c env s t loc buffer size =
        ⟨ErrorCode.FILE_NOT_FOUND, s, buffer, size, none⟩) ∨
    (∃ i f, find_file_entry loc.header t = some (i, f) ∧
      ((size < f.file_size ∧
          read_located c env s t loc buffer size =
            ⟨ErrorCode.INVALID_PARAMETER, s, buffer, f.file_size, none⟩) ∨
       (f.file_size ≤ size ∧
          env.hash ((zero_filled buffer f.file_size).take f.file_size) ≠ f.file_hash ∧
          read_located c env s t loc buffer size =
            ⟨ErrorCode.HASH_MISMATCH, s, zero_filled buffer f.file_size, size, none⟩) ∨
       (f.file_size ≤ size ∧
          env.hash ((zero_filled buffer f.file_size).take f.file_size) = f.file_hash ∧
          read_located c env s t loc buffer size =
            ⟨ErrorCode.SUCCESS, read_system c env s t loc f, zero_filled buffer f.file_size,
              f.file_size,
              some { loc.header with
                files := loc.header.files.set i { f with access_time := env.clock 0 } }⟩))) := by
  cases hf : find_file_entry loc.header t with
  | none =>
    left
    refine ⟨rfl, ?_⟩
    unfold read_located
    simp [hf]
  | some r =>
    right
    obtain ⟨i, f⟩ := r
    refine ⟨i, f, rfl, ?_⟩
    by_cases hsz : size < f.file_size
    · left
      refine ⟨hsz, ?_⟩
      unfold read_located
      simp [hf, hsz]
    · right
      by_cases hh : env.hash ((zero_filled buffer f.file_size).take f.file_size) = f.file_hash
      · right
        refine ⟨by omega, hh, ?_⟩
        rw [take_zero_filled] at hh
        unfold read_located
        simp [hf, hsz, hh, read_system, zero_filled]
      · left
        refine ⟨by omega, hh, ?_⟩
        rw [take_zero_filled] at hh
        unfold read_located
        simp [hf, hsz, hh, zero_filled]

theorem read_cases (c : Consts) (env : Env) (p : ReadPtrs) (s : System) (t : Tag)
    (buffer : List Nat) (size : Nat) :
    ((p.system = false ∨ p.file_tag = false ∨ p.buffer = false ∨ p.size = false) ∧
      fgsls_read_file_from_basket c env p s t buffer size =
        ⟨ErrorCode.INVALID_PARAMETER, s, buffer, size, none⟩) ∨
    (p = ReadPtrs.valid ∧ s.is_mounted = false ∧
      fgsls_read_file_from_basket c env p s t buffer size =
        ⟨ErrorCode.SYSTEM_NOT_MOUNTED, s, buffer, size, none⟩) ∨
    (p = ReadPtrs.valid ∧ s.is_mounted = true ∧ ∃ e, locate_basket c s t = .error e ∧
      fgsls_read_file_from_basket c env p s t buffer size = ⟨e, s, buffer, size, none⟩) ∨
    (p = ReadPtrs.valid ∧ s.is_mounted = true ∧ ∃ loc, locate_basket c s t = .ok loc ∧
      ((find_file_entry loc.header t = none ∧
          fgsls_read_file_from_basket c env p s t buffer size =
            ⟨ErrorCode.FILE_NOT_FOUND, s, buffer, size, none⟩) ∨
       (∃ i f, find_file_entry loc.header t = some (i, f) ∧
          ((size < f.file_size ∧
              fgsls_read_file_from_basket c env p s t buffer size =
                ⟨ErrorCode.INVALID_PARAMETER, s, buffer, f.file_size, none⟩) ∨
           (f.file_size ≤ size ∧
              env.hash ((zero_filled buffer f.file_size).take f.file_size) ≠ f.file_hash ∧
              fgsls_read_file_from_basket c env p s t buffer size =
                ⟨ErrorCode.HASH_MISMATCH, s, zero_filled buffer f.file_size, size, none⟩) ∨
           (f.file_size ≤ size ∧
              env.hash ((zero_filled buffer f.file_size).take f.file_size) = f.file_hash ∧
              fgsls_read_file_from_basket c env p s t buffer size =
                ⟨ErrorCode.SUCCESS, read_system c env s t loc f, zero_filled buffer f.file_size,
                  f.file_size,
                  some { loc.header with
                    files := loc.header.files.set i
                      { f with access_time := env.clock 0 } }⟩))))) := by
  rcases read_ptrs_cases p with hinv | hp
  · exact Or.inl ⟨hinv, read_invalid c env p s t buffer size hinv⟩
  right
  subst hp
  by_cases hm : s.is_mounted = true
  · right
    cases hl : locate_basket c s t with
    | error e =>
      left
      refine ⟨rfl, hm, e, rfl, ?_⟩
      unfold fgsls_read_file_from_basket
      simp [ReadPtrs.valid, hm, hl]
    | ok loc =>
      right
      refine ⟨rfl, hm, loc, rfl, ?_⟩
      have hd : fgsls_read_file_from_basket c env ReadPtrs.valid s t buffer size
          = read_located c env s t loc buffer size := by
        unfold fgsls_read_file_from_basket
        simp [ReadPtrs.valid, hm, hl]
      rw [hd]
      exact read_located_cases c env s t loc buffer size
  · left
    have hm2 : s.is_mounted = false := by simpa using hm
    exact ⟨rfl, hm2, read_not_mounted c env s t buffer size hm2⟩

theorem isFirstAt_tag (t : Tag) (l : List PositionEntry) (i : Nat) (e : PositionEntry) :
    IsFirstAt (fun e => e.tag == t) l i e ↔
      l[i]? = some e ∧ e.tag = t ∧ ∀ j x, j < i → l[j]? = some x → x.tag ≠ t := by
  simp [IsFirstAt]

theorem locate_basket_not_found (c : Consts) (s : System) (t : Tag)
    (h : (∀ e ∈ s.taver_index.entries, e.tag ≠ t) ∨
      ∃ i e, IsFirstAt (fun e => e.tag == t) s.taver_index.entries i e ∧
        e.container_type ≠ ContainerType.BASKET_FILE) :
    locate_basket c s t = .error ErrorCode.FILE_NOT_FOUND := by
  unfold locate_basket
  rcases h with h | ⟨i, e, hf, hk⟩
  · have : firstMatch (fun e => e.tag == t) s.taver_index.entries = none :=
      (firstMatch_eq_none_iff _ _).2 (by simpa using h)
    simp [this]
  · have : firstMatch (fun e => e.tag == t) s.taver_index.entries = some (i, e) :=
      (firstMatch_eq_some_iff _ _ _ _).2 hf
    simp [this, hk]

theorem locate_basket_corrupted (c : Consts) (s : System) (t : Tag) (i : Nat)
    (e : PositionEntry) (hf : IsFirstAt (fun e => e.tag == t) s.taver_index.entries i e)
    (hk : e.container_type = ContainerType.BASKET_FILE)
    (hb : ∀ b ∈ s.taver_index.entries, ¬ (b.container_type = ContainerType.BASKET ∧
      b.shelf_id = e.shelf_id ∧ b.physical_offset = e.physical_offset)) :
    locate_basket c s t = .error ErrorCode.CORRUPTED_DATA := by
  unfold locate_basket
  have h1 : firstMatch (fun e => e.tag == t) s.taver_index.entries = some (i, e) :=
    (firstMatch_eq_some_iff _ _ _ _).2 hf
  have h2 : s.taver_index.entries.find? (fun b =>
      b.container_type == ContainerType.BASKET && b.shelf_id == e.shelf_id &&
      b.physical_offset == e.physical_offset) = none := by
    rw [List.find?_eq_none]
    intro b hbm
    have := hb b hbm
    simpa [and_assoc] using this
  simp [h1, hk, h2]

theorem read_of_locate_error (c : Consts) (env : Env) (s : System) (t : Tag)
    (buffer : List Nat) (size : Nat) (e : ErrorCode) (hm : s.is_mounted = true)
    (hl : locate_basket c s t = .error e) :
    fgsls_read_file_from_basket c env ReadPtrs.valid s t buffer size
      = ⟨e, s, buffer, size, none⟩ := by
  unfold fgsls_read_file_from_basket
  simp [ReadPtrs.valid, hm, hl]

theorem delete_of_locate_error (c : Consts) (env : Env) (s : System) (t : Tag)
    (e : ErrorCode) (hm : s.is_mounted = true) (hl : locate_basket c s t = .error e) :
    fgsls_delete_file_from_basket c env DeletePtrs.valid s t = ⟨e, s, none⟩ := by
  unfold fgsls_delete_file_from_basket
  simp [DeletePtrs.valid, hm, hl]

theorem erase_leaves_other_keys {α β : Type} (f : α → β) (l : List α) (i : Nat) (e : α)
    (hi : l[i]? = some e) (hn : (l.map f).Nodup) : ∀ x ∈ l.eraseIdx i, f x ≠ f e := by
  induction l generalizing i with
  | nil => simp at hi
  | cons a l ih =>
    simp only [List.map_cons, List.nodup_cons, List.mem_map, not_exists, not_and] at hn
    cases i with
    | zero =>
      simp only [List.getElem?_cons_zero, Option.some.injEq] at hi
      subst hi
      intro x hx
      simp only [List.eraseIdx_cons_zero] at hx
      exact hn.1 x hx
    | succ k =>
      simp only [List.getElem?_cons_succ] at hi
      intro x hx
      simp only [List.eraseIdx_cons_succ, List.mem_cons] at hx
      rcases hx with rfl | hx
      · have hmem : e ∈ l := List.getElem?_mem hi
        exact fun heq => hn.1 e hmem heq.symm
      · exact ih k hi hn.2 x hx

/-- C4. Index removal on delete: when `fgsls_delete_file_from_basket` with tag `t`
returns success, there is a first index entry `e` with tag `t`, at position `i`,
and the resulting index is the prior one with exactly that entry removed: the
entries before `i` followed by the entries after `i`, in their order; the entry
count decreased by one, the capacity is unchanged, and if the tags of the prior
index were pairwise distinct no entry with tag `t` remains. -/
theorem C4_index_removal_on_delete (c : Consts) (env : Env) (p : DeletePtrs) (s : System)
    (t : Tag) (h : (fgsls_delete_file_from_basket c env p s t).code = ErrorCode.SUCCESS) :
    ∃ i e,
      s.taver_index.entries[i]? = some e ∧ e.tag = t ∧
      (∀ j x, j < i → s.taver_index.entries[j]? = some x → x.tag ≠ t) ∧
      (fgsls_delete_file_from_basket c env p s t).system.taver_index.entries =
        s.taver_index.entries.take i ++ s.taver_index.entries.drop (i + 1) ∧
      (fgsls_delete_file_from_basket c env p s t).system.taver_index.entries =
        s.taver_index.entries.eraseIdx i ∧
      (fgsls_delete_file_from_basket c env p s t).system.taver_index.entries.length + 1 =
        s.taver_index.entries.length ∧
      (fgsls_delete_file_from_basket c env p s t).system.taver_index.max_entries =
        s.taver_index.max_entries ∧
      ((s.taver_index.entries.map (fun x => x.tag)).Nodup →
        ∀ x ∈ (fgsls_delete_file_from_basket c env p s t).system.taver_index.entries,
          x.tag ≠ t) := by
  rcases delete_cases c env p s t with
    ⟨_, hr⟩ | ⟨_, _, hr⟩ | ⟨_, _, e, hl, hr⟩ | ⟨_, _, loc, hl, hcase⟩
  · rw [hr] at h; cases h
  · rw [hr] at h; cases h
  · rw [hr] at h
    rcases locate_basket_error c s t e hl with he | he <;> (rw [he] at h; cases h)
  · rcases hcase with ⟨_, hr⟩ | ⟨k, f, _, hr⟩
    · rw [hr] at h; cases h
    · obtain ⟨hfirst, _, _⟩ := locate_basket_ok c s t loc hl
      obtain ⟨h1, h2, h3⟩ := (isFirstAt_tag t _ _ _).1 hfirst
      have hlt : loc.entry_index < s.taver_index.entries.length :=
        (List.getElem?_eq_some_iff.1 h1).1
      refine ⟨loc.entry_index, loc.entry, h1, h2, h3, ?_, ?_, ?_, ?_, ?_⟩
      · rw [hr]
        simp [deleted_system, List.eraseIdx_eq_take_drop_succ]
      · rw [hr]
        simp [deleted_system]
      · rw [hr]
        simp only [deleted_system]
        rw [List.length_eraseIdx_of_lt hlt]
        omega
      · rw [hr]
        simp [deleted_system]
      · intro hn x hx
        rw [hr] at hx
        simp only [deleted_system] at hx
        have := erase_leaves_other_keys (fun x : PositionEntry => x.tag) _ _ _ h1 hn x hx
        simpa [h2] using this

/-- C6. Tag resolution errors: on a mounted system, read file and delete file
(called with non-null pointers) return FileNotFound when no index entry has tag
`t` or the first entry with tag `t` is not of kind `BASKET_FILE`, and
CorruptedData when that entry is of kind `BASKET_FILE` but no entry of kind
`BASKET` has its shelf id and physical offset; in both cases the system state
(and the caller's buffer and size) is unchanged. -/
theorem C6_tag_resolution_errors (c : Consts) (env : Env) (s : System) (t : Tag)
    (hm : s.is_mounted = true) :
    (((∀ e ∈ s.taver_index.entries, e.tag ≠ t) ∨
       (∃ (i : Nat) (e : PositionEntry), s.taver_index.entries[i]? = some e ∧ e.tag = t ∧
          (∀ (j : Nat) (x : PositionEntry), j < i →
            s.taver_index.entries[j]? = some x → x.tag ≠ t) ∧
          e.container_type ≠ ContainerType.BASKET_FILE)) →
      (∀ buffer size, fgsls_read_file_from_basket c env ReadPtrs.valid s t buffer size =
          ⟨ErrorCode.FILE_NOT_FOUND, s, buffer, size, none⟩) ∧
      fgsls_delete_file_from_basket c env DeletePtrs.valid s t
        = ⟨ErrorCode.FILE_NOT_FOUND, s, none⟩) ∧
    (∀ (i : Nat) (e : PositionEntry), s.taver_index.entries[i]? = some e → e.tag = t →
      (∀ (j : Nat) (x : PositionEntry), j < i →
        s.taver_index.entries[j]? = some x → x.tag ≠ t) →
      e.container_type = ContainerType.BASKET_FILE →
      (∀ b ∈ s.taver_index.entries, ¬ (b.container_type = ContainerType.BASKET ∧
        b.shelf_id = e.shelf_id ∧ b.physical_offset = e.physical_offset)) →
      (∀ buffer size, fgsls_read_file_from_basket c env ReadPtrs.valid s t buffer size =
          ⟨ErrorCode.CORRUPTED_DATA, s, buffer, size, none⟩) ∧
      fgsls_delete_file_from_basket c env DeletePtrs.valid s t
        = ⟨ErrorCode.CORRUPTED_DATA, s, none⟩) := by
  constructor
  · intro h
    have hl : locate_basket c s t = .error ErrorCode.FILE_NOT_FOUND := by
      apply locate_basket_not_found
      rcases h with h | ⟨i, e, h1, h2, h3, h4⟩
      · exact Or.inl h
      · exact Or.inr ⟨i, e, (isFirstAt_tag t _ _ _).2 ⟨h1, h2, h3⟩, h4⟩
    exact ⟨fun buffer size => read_of_locate_error c env s t buffer size _ hm hl,
      delete_of_locate_error c env s t _ hm hl⟩
  · intro i e h1 h2 h3 h4 h5
    have hl : locate_basket c s t = .error ErrorCode.CORRUPTED_DATA :=
      locate_basket_corrupted c s t i e ((isFirstAt_tag t _ _ _).2 ⟨h1, h2, h3⟩) h4 h5
    exact ⟨fun buffer size => read_of_locate_error c env s t buffer size _ hm hl,
      delete_of_locate_error c env s t _ hm hl⟩

theorem read_of_locate_ok (c : Consts) (env : Env) (s : System) (t : Tag)
    (buffer : List Nat) (size : Nat) (loc : BasketLocation) (hm : s.is_mounted = true)
    (hl : locate_basket c s t = .ok loc) :
    fgsls_read_file_from_basket c env ReadPtrs.valid s t buffer size
      = read_located c env s t loc buffer size := by
  unfold fgsls_read_file_from_basket
  simp [ReadPtrs.valid, hm, hl]

theorem read_located_success (c : Consts) (env : Env) (s : System) (t : Tag) (loc : BasketLocation)
    (buffer : List Nat) (size : Nat)
    (h : (read_located c env s t loc buffer size).code = ErrorCode.SUCCESS) :
    ∃ i f, find_file_entry loc.header t = some (i, f) ∧
      (read_located c env s t loc buffer size).size = f.file_size ∧
      env.hash ((read_located c env s t loc buffer size).buffer.take
        (read_located c env s t loc buffer size).size) = f.file_hash := by
  rcases read_located_cases c env s t loc buffer size with
    ⟨_, hr⟩ | ⟨i, f, hf, ⟨_, hr⟩ | ⟨_, _, hr⟩ | ⟨_, hh, hr⟩⟩
  · rw [hr] at h; cases h
  · rw [hr] at h; cases h
  · rw [hr] at h; cases h
  · refine ⟨i, f, hf, ?_, ?_⟩
    · rw [hr]
    · rw [hr]; exact hh

theorem read_located_mismatch (c : Consts) (env : Env) (s : System) (t : Tag) (loc : BasketLocation)
    (buffer : List Nat) (size : Nat) (i : Nat) (f : FileEntry)
    (hf : find_file_entry loc.header t = some (i, f)) (hsz : f.file_size ≤ size)
    (hne : env.hash ((zero_filled buffer f.file_size).take f.file_size) ≠ f.file_hash) :
    read_located c env s t loc buffer size =
      ⟨ErrorCode.HASH_MISMATCH, s, zero_filled buffer f.file_size, size, none⟩ := by
  rcases read_located_cases c env s t loc buffer size with ⟨hf2, _⟩ | ⟨i2, f2, hf2, hrest⟩
  · rw [hf] at hf2; cases hf2
  · rw [hf] at hf2
    cases hf2
    rcases hrest with ⟨hlt, _⟩ | ⟨_, _, hr⟩ | ⟨_, hh, _⟩
    · omega
    · exact hr
    · exact absurd hh hne

/-- C5. Read integrity, for every hash function `env.hash`. For every resolved
location `loc` (any basket header): whenever the read returns success, the tag
was found in a live slot of the header, the reported size `n` is the size of
that slot and the hash of the first `n` bytes of the caller's buffer equals the
content hash stored in the slot; whenever the slot is found, the buffer is large
enough and the hash recomputed over the bytes placed in the buffer differs from
the stored one, the result is HashMismatch, no header is written back and the
system state (index entry statistics, `total_reads`, everything else) is
unchanged. The same two facts hold for `fgsls_read_file_from_basket` on every
system state (the second one for a call with non-null pointers). -/
theorem C5_read_integrity (c : Consts) (env : Env) (s : System) (t : Tag)
    (buffer : List Nat) (size : Nat) :
    (∀ loc, (read_located c env s t loc buffer size).code = ErrorCode.SUCCESS →
      ∃ i f, find_file_entry loc.header t = some (i, f) ∧
        (read_located c env s t loc buffer size).size = f.file_size ∧
        env.hash ((read_located c env s t loc buffer size).buffer.take
          (read_located c env s t loc buffer size).size) = f.file_hash) ∧
    (∀ loc i f, find_file_entry loc.header t = some (i, f) → f.file_size ≤ size →
      env.hash ((zero_filled buffer f.file_size).take f.file_size) ≠ f.file_hash →
      (read_located c env s t loc buffer size).code = ErrorCode.HASH_MISMATCH ∧
      (read_located c env s t loc buffer size).system = s ∧
      (read_located c env s t loc buffer size).written = none) ∧
    (∀ p, (fgsls_read_file_from_basket c env p s t buffer size).code = ErrorCode.SUCCESS →
      ∃ loc i f, locate_basket c s t = .ok loc ∧ find_file_entry loc.header t = some (i, f) ∧
        (fgsls_read_file_from_basket c env p s t buffer size).size = f.file_size ∧
        env.hash ((fgsls_read_file_from_basket c env p s t buffer size).buffer.take
          (fgsls_read_file_from_basket c env p s t buffer size).size) = f.file_hash) ∧
    (∀ loc i f, s.is_mounted = true → locate_basket c s t = .ok loc →
      find_file_entry loc.header t = some (i, f) → f.file_size ≤ size →
      env.hash ((zero_filled buffer f.file_size).take f.file_size) ≠ f.file_hash →
      (fgsls_read_file_from_basket c env ReadPtrs.valid s t buffer size).code
        = ErrorCode.HASH_MISMATCH ∧
      (fgsls_read_file_from_basket c env ReadPtrs.valid s t buffer size).system = s ∧
      (fgsls_read_file_from_basket c env ReadPtrs.valid s t buffer size).written = none) := by
  refine ⟨?_, ?_, ?_, ?_⟩
  · intro loc h
    exact read_located_success c env s t loc buffer size h
  · intro loc i f hf hsz hne
    rw [read_located_mismatch c env s t loc buffer size i f hf hsz hne]
    exact ⟨rfl, rfl, rfl⟩
  · intro p h
    rcases read_cases c env p s t buffer size with
      ⟨_, hr⟩ | ⟨_, _, hr⟩ | ⟨_, _, e, hl, hr⟩ | ⟨hp, hm, loc, hl, _⟩
    · rw [hr] at h; cases h
    · rw [hr] at h; cases h
    · rw [hr] at h
      rcases locate_basket_error c s t e hl with he | he <;> (rw [he] at h; cases h)
    · subst hp
      rw [read_of_locate_ok c env s t buffer size loc hm hl] at h ⊢
      obtain ⟨i, f, hf, h1, h2⟩ := read_located_success c env s t loc buffer size h
      exact ⟨loc, i, f, hl, hf, h1, h2⟩
  · intro loc i f hm hl hf hsz hne
    rw [read_of_locate_ok c env s t buffer size loc hm hl,
      read_located_mismatch c env s t loc buffer size i f hf hsz hne]
    exact ⟨rfl, rfl, rfl⟩

/-- Witness of C4: deleting the all-zero tag from `storedSystem`. -/
theorem C4_index_removal_on_delete_witness :
    (fgsls_delete_file_from_basket sampleConsts (sampleEnv 9) DeletePtrs.valid
      storedSystem 0).code = ErrorCode.SUCCESS ∧
    (fgsls_delete_file_from_basket sampleConsts (sampleEnv 9) DeletePtrs.valid
      storedSystem 0).system.taver_index.entries.length + 1
        = storedSystem.taver_index.entries.length :=
  ⟨by decide, by
    obtain ⟨i, e, _, _, _, _, _, hlen, _⟩ :=
      C4_index_removal_on_delete sampleConsts (sampleEnv 9) DeletePtrs.valid storedSystem 0
        (by decide)
    exact hlen⟩

/-- Witness of C6: tag 5 is absent, tag 7 is a basket, tag 9 has no owning basket. -/
theorem C6_tag_resolution_errors_witness :
    storedSystem.is_mounted = true ∧
    fgsls_delete_file_from_basket sampleConsts (sampleEnv 9) DeletePtrs.valid storedSystem 5
      = ⟨ErrorCode.FILE_NOT_FOUND, storedSystem, none⟩ ∧
    fgsls_delete_file_from_basket sampleConsts (sampleEnv 9) DeletePtrs.valid storedSystem 7
      = ⟨ErrorCode.FILE_NOT_FOUND, storedSystem, none⟩ ∧
    fgsls_read_file_from_basket sampleConsts (sampleEnv 9) ReadPtrs.valid storedSystem 9
      [1, 2, 3] 3 = ⟨ErrorCode.CORRUPTED_DATA, storedSystem, [1, 2, 3], 3, none⟩ :=
  ⟨by decide,
   ((C6_tag_resolution_errors sampleConsts (sampleEnv 9) storedSystem 5 (by decide)).1
      (Or.inl (by decide))).2,
   ((C6_tag_resolution_errors sampleConsts (sampleEnv 9) storedSystem 7 (by decide)).1
      (Or.inr ⟨0, storedBasketEntry, by decide, by decide,
        fun j x hj _ => absurd hj (Nat.not_lt_zero j), by decide⟩)).2,
   ((C6_tag_resolution_errors sampleConsts (sampleEnv 9) storedSystem 9 (by decide)).2
      2 orphanFileEntry (by decide) (by decide)
      (fun j x hj hx => by
        have h2 : j = 0 ∨ j = 1 := by omega
        rcases h2 with rfl | rfl
        · cases hx; decide
        · cases hx; decide)
      (by decide) (by decide)).1 [1, 2, 3] 3⟩

/-- Witness of C5. In the sample header a file of 100 zero bytes (tag 8) is read
back successfully; a file of 50 bytes of value 1 (tag 9) cannot be read back,
since the simulated read delivers zero bytes: HashMismatch. On `storedSystem`,
reading the all-zero tag succeeds with the byte-sum digest and gives
HashMismatch with the length digest. -/
theorem C5_read_integrity_witness :
    (read_located sampleConsts (sampleEnv 20) storedSystem 8
      ⟨1, storedFileEntry, 7, sampleAdded.1⟩ (List.replicate 128 5) 128).code
        = ErrorCode.SUCCESS ∧
    (∃ f : FileEntry, f.file_size = 100 ∧
      (sampleEnv 20).hash
        ((read_located sampleConsts (sampleEnv 20) storedSystem 8
          ⟨1, storedFileEntry, 7, sampleAdded.1⟩
          (List.replicate 128 5) 128).buffer.take 100) = f.file_hash) ∧
    (read_located sampleConsts (sampleEnv 20) storedSystem 9
      ⟨1, storedFileEntry, 7, sampleAddedOnes.1⟩ (List.replicate 128 5) 128).code
        = ErrorCode.HASH_MISMATCH ∧
    (fgsls_read_file_from_basket sampleConsts (sampleEnv 9) ReadPtrs.valid storedSystem 0
      [5, 6, 7] 3).code = ErrorCode.SUCCESS ∧
    (∃ f : FileEntry,
      (fgsls_read_file_from_basket sampleConsts (sampleEnv 9) ReadPtrs.valid storedSystem 0
        [5, 6, 7] 3).size = f.file_size) ∧
    (fgsls_read_file_from_basket sampleConsts lengthEnv ReadPtrs.valid storedSystem 0
      [5, 6, 7] 3).code = ErrorCode.HASH_MISMATCH ∧
    (fgsls_read_file_from_basket sampleConsts lengthEnv ReadPtrs.valid storedSystem 0
      [5, 6, 7] 3).system = storedSystem :=
  ⟨by decide,
   (by
    obtain ⟨_, f, _, h1, h2⟩ :=
      (C5_read_integrity sampleConsts (sampleEnv 20) storedSystem 8 (List.replicate 128 5)
        128).1 ⟨1, storedFileEntry, 7, sampleAdded.1⟩ (by decide)
    have h3 : (read_located sampleConsts (sampleEnv 20) storedSystem 8
        ⟨1, storedFileEntry, 7, sampleAdded.1⟩ (List.replicate 128 5) 128).size = 100 := by
      decide
    rw [h3] at h1 h2
    exact ⟨f, h1.symm, h2⟩),
   ((C5_read_integrity sampleConsts (sampleEnv 20) storedSystem 9 (List.replicate 128 5)
      128).2.1 ⟨1, storedFileEntry, 7, sampleAddedOnes.1⟩ sampleAddedOnes.2
      (sampleAddedOnes.1.files.getD sampleAddedOnes.2 zeroFileEntry)
      (by rfl) (by decide) (by decide)).1,
   by decide,
   (by
    obtain ⟨_, _, f, _, _, h1, _⟩ :=
      (C5_read_integrity sampleConsts (sampleEnv 9) storedSystem 0 [5, 6, 7] 3).2.2.1
        ReadPtrs.valid (by decide)
    exact ⟨f, h1⟩),
   ((C5_read_integrity sampleConsts lengthEnv storedSystem 0 [5, 6, 7] 3).2.2.2
      storedLocation 0 zeroFileEntry (by decide) (by rfl) (by rfl) (by decide) (by decide)).1,
   ((C5_read_integrity sampleConsts lengthEnv storedSystem 0 [5, 6, 7] 3).2.2.2
      storedLocation 0 zeroFileEntry (by decide) (by rfl) (by rfl) (by decide)
      (by decide)).2.1⟩

theorem wrapSub_of_le (m a b : Nat) (h : b ≤ a) : wrapSub m a b = a - b := by
  simp [wrapSub, h]

theorem create_header_space (c : Consts) (tag : Tag) (shelf_id now off : Nat)
    (hc : c.HEADER_SIZE ≤ c.BASKET_DEFAULT_SIZE) :
    (create_basket_header c tag shelf_id now off).used_space +
      (create_basket_header c tag shelf_id now off).free_space =
      (create_basket_header c tag shelf_id now off).basket_size := by
  simp only [create_basket_header, wrapSub_of_le _ _ _ hc]
  omega

theorem compact_basket_size (c : Consts) (now : Nat) (h : BasketHeader) :
    (_fgsls_compact_basket c now h).basket_size = h.basket_size := by
  unfold _fgsls_compact_basket
  by_cases hd : h.deleted_count = 0
  · simp [hd]
  · simp [hd]

theorem compact_space (c : Consts) (now : Nat) (h : BasketHeader)
    (ht : h.basket_size < c.SPACE_MOD)
    (hinv : h.used_space + h.free_space = h.basket_size)
    (hr : reclaimed_space h.files ≤ h.used_space) :
    (_fgsls_compact_basket c now h).used_space + (_fgsls_compact_basket c now h).free_space =
      (_fgsls_compact_basket c now h).basket_size := by
  have hw : wrapAdd c.SPACE_MOD h.free_space (reclaimed_space h.files)
      = h.free_space + reclaimed_space h.files := wrapAdd_of_lt _ _ _ (by omega)
  unfold _fgsls_compact_basket
  by_cases hd : h.deleted_count = 0
  · simp [hd, hinv]
  · simp only [hd, if_false, wrapSub_of_le _ _ _ hr, hw]
    omega

theorem add_file_update_ok (c : Consts) (env : Env) (h : BasketHeader)
    (filename data : List Nat) (size : Nat) (h1 : BasketHeader) (i : Nat)
    (hr : add_file_update c env h filename data size = .ok (h1, i)) :
    h.file_count < c.BASKET_MAX_FILES ∧
    ((size ≤ h.free_space ∧ add_file_slot c env h filename data size = .ok (h1, i)) ∨
     (h.free_space < size ∧ size ≤ (_fgsls_compact_basket c (env.clock 0) h).free_space ∧
       add_file_slot c env (_fgsls_compact_basket c (env.clock 0) h) filename data size
         = .ok (h1, i))) := by
  unfold add_file_update at hr
  by_cases h0 : h.file_count ≥ c.BASKET_MAX_FILES
  · simp [h0] at hr
  · by_cases hlt : h.free_space < size
    · by_cases h2 : (_fgsls_compact_basket c (env.clock 0) h).free_space < size
      · simp [h0, hlt, h2] at hr
      · simp only [h0, hlt, h2, if_false, if_true] at hr
        exact ⟨by omega, Or.inr ⟨hlt, by omega, hr⟩⟩
    · simp only [h0, hlt, if_false] at hr
      exact ⟨by omega, Or.inl ⟨by omega, hr⟩⟩

theorem add_file_slot_space (c : Consts) (env : Env) (h : BasketHeader)
    (filename data : List Nat) (size : Nat) (h1 : BasketHeader) (i : Nat)
    (ht : h.basket_size < c.SPACE_MOD)
    (hinv : h.used_space + h.free_space = h.basket_size) (hs : size ≤ h.free_space)
    (hr : add_file_slot c env h filename data size = .ok (h1, i)) :
    h1.used_space + h1.free_space = h1.basket_size := by
  have hw : wrapAdd c.SPACE_MOD h.used_space size = h.used_space + size :=
    wrapAdd_of_lt _ _ _ (by omega)
  unfold add_file_slot at hr
  split at hr
  · cases hr
  · cases hr
    simp only [store_basket_hash, hw]
    omega

theorem add_file_update_space (c : Consts) (env : Env) (h : BasketHeader)
    (filename data : List Nat) (size : Nat) (h1 : BasketHeader) (i : Nat)
    (ht : h.basket_size < c.SPACE_MOD)
    (hinv : h.used_space + h.free_space = h.basket_size)
    (hs : size ≤ h.free_space ∨ reclaimed_space h.files ≤ h.used_space)
    (hr : add_file_update c env h filename data size = .ok (h1, i)) :
    h1.used_space + h1.free_space = h1.basket_size := by
  rcases (add_file_update_ok c env h filename data size h1 i hr).2 with
    ⟨hle, hslot⟩ | ⟨hlt, hle, hslot⟩
  · exact add_file_slot_space c env h filename data size h1 i ht hinv hle hslot
  · have hrec : reclaimed_space h.files ≤ h.used_space := by
      rcases hs with hs | hs
      · omega
      · exact hs
    exact add_file_slot_space c env _ filename data size h1 i
      (by rw [compact_basket_size]; exact ht)
      (compact_space c (env.clock 0) h ht hinv hrec) hle hslot

theorem delete_file_update_space (c : Consts) (env : Env) (h : BasketHeader) (t : Tag)
    (h1 : BasketHeader) (f : FileEntry)
    (ht : h.basket_size < c.SPACE_MOD)
    (hinv : h.used_space + h.free_space = h.basket_size)
    (hr : delete_file_update c env h t = .ok (h1, f)) (hs : f.file_size ≤ h.used_space) :
    h1.used_space + h1.free_space = h1.basket_size := by
  have hw : wrapAdd c.SPACE_MOD h.free_space f.file_size = h.free_space + f.file_size :=
    wrapAdd_of_lt _ _ _ (by omega)
  unfold delete_file_update at hr
  split at hr
  · cases hr
  · cases hr
    simp only [mark_deleted, store_basket_hash, wrapSub_of_le _ _ _ hs, hw]
    omega

/-- C2. Space invariant: the header built by create basket satisfies
`used_space + free_space = basket_size` (the header fits into a basket), and for
every header that satisfies it (and whose `basket_size` is a value of the type
of the space fields, below `SPACE_MOD`), the header produced by a successful
add-file update (when `size <= free_space`, or when the compactor runs first and
the reclaimed bytes do not exceed `used_space`), by a successful delete-file
update (slot size `<= used_space`) and by compact (reclaimed `<= used_space`)
satisfies it again. -/
theorem C2_space_invariant (c : Consts) (hc : c.HEADER_SIZE ≤ c.BASKET_DEFAULT_SIZE) :
    (∀ tag shelf_id now off,
      (create_basket_header c tag shelf_id now off).used_space +
        (create_basket_header c tag shelf_id now off).free_space =
        (create_basket_header c tag shelf_id now off).basket_size) ∧
    (∀ env h filename data size h1 i,
      h.basket_size < c.SPACE_MOD →
      h.used_space + h.free_space = h.basket_size →
      (size ≤ h.free_space ∨ reclaimed_space h.files ≤ h.used_space) →
      add_file_update c env h filename data size = .ok (h1, i) →
      h1.used_space + h1.free_space = h1.basket_size) ∧
    (∀ env h t h1 f,
      h.basket_size < c.SPACE_MOD →
      h.used_space + h.free_space = h.basket_size →
      delete_file_update c env h t = .ok (h1, f) →
      f.file_size ≤ h.used_space →
      h1.used_space + h1.free_space = h1.basket_size) ∧
    (∀ now h,
      h.basket_size < c.SPACE_MOD →
      h.used_space + h.free_space = h.basket_size →
      reclaimed_space h.files ≤ h.used_space →
      (_fgsls_compact_basket c now h).used_space + (_fgsls_compact_basket c now h).free_space =
        (_fgsls_compact_basket c now h).basket_size) :=
  ⟨fun tag shelf_id now off => create_header_space c tag shelf_id now off hc,
   fun env h filename data size h1 i ht hinv hs hr =>
     add_file_update_space c env h filename data size h1 i ht hinv hs hr,
   fun env h t h1 f ht hinv hr hs => delete_file_update_space c env h t h1 f ht hinv hr hs,
   fun now h ht hinv hr => compact_space c now h ht hinv hr⟩

theorem firstIndex_eq_some {α : Type} (p : α → Bool) (l : List α) (i : Nat)
    (h : firstIndex p l = some i) : ∃ a, IsFirstAt p l i a := by
  induction l generalizing i with
  | nil => simp [firstIndex] at h
  | cons a l ih =>
    by_cases hp : p a = true
    · simp only [firstIndex, hp, if_true, Option.some.injEq] at h
      subst h
      exact ⟨a, by simp, hp, fun j x hj => by omega⟩
    · simp only [firstIndex, hp, Bool.false_eq_true, if_false, Option.map_eq_some'] at h
      obtain ⟨k, hk, rfl⟩ := h
      obtain ⟨b, h1, h2, h3⟩ := ih k hk
      refine ⟨b, by simpa using h1, h2, ?_⟩
      intro j x hj hx
      cases j with
      | zero => simp at hx; subst hx; simpa using hp
      | succ j => exact h3 j x (by omega) (by simpa using hx)

theorem countP_set {α : Type} (p : α → Bool) (l : List α) (i : Nat) (a b : α)
    (hi : l[i]? = some a) :
    (l.set i b).countP p + (if p a then 1 else 0) = l.countP p + (if p b then 1 else 0) := by
  induction l generalizing i with
  | nil => simp at hi
  | cons x l ih =>
    cases i with
    | zero =>
      simp only [List.getElem?_cons_zero, Option.some.injEq] at hi
      subst hi
      simp only [List.set_cons_zero, List.countP_cons]
      omega
    | succ k =>
      simp only [List.getElem?_cons_succ] at hi
      have := ih k hi
      simp only [List.set_cons_succ, List.countP_cons]
      omega

theorem live_count_create (c : Consts) (tag : Tag) (shelf_id now off : Nat) :
    live_count (create_basket_header c tag shelf_id now off).files = 0 := by
  simp [live_count, create_basket_header, unusedFileEntry, List.countP_eq_zero]

theorem compact_slot_is_deleted (f : FileEntry) : (compact_slot f).is_deleted = f.is_deleted := by
  unfold compact_slot
  by_cases h : (f.is_deleted && decide (f.file_size > 0)) = true
  · simp only [h, if_true, unusedFileEntry]
    simp only [Bool.and_eq_true] at h
    exact h.1.symm
  · simp [h]

theorem live_count_map_compact (files : List FileEntry) :
    live_count (files.map compact_slot) = live_count files := by
  induction files with
  | nil => rfl
  | cons f l ih =>
    simp only [live_count, List.map_cons, List.countP_cons, compact_slot_is_deleted] at ih ⊢
    rw [ih]

theorem compact_file_count (c : Consts) (now : Nat) (h : BasketHeader)
    (hinv : h.file_count = live_count h.files) :
    (_fgsls_compact_basket c now h).file_count
      = live_count (_fgsls_compact_basket c now h).files := by
  unfold _fgsls_compact_basket
  by_cases hd : h.deleted_count = 0
  · simp [hd, hinv]
  · simp only [hd, if_false, live_count_map_compact]
    exact hinv

theorem add_file_slot_file_count (c : Consts) (env : Env) (h : BasketHeader)
    (filename data : List Nat) (size : Nat) (h1 : BasketHeader) (i : Nat)
    (hinv : h.file_count = live_count h.files)
    (hr : add_file_slot c env h filename data size = .ok (h1, i)) :
    h1.file_count = live_count h1.files := by
  unfold add_file_slot at hr
  split at hr
  · cases hr
  · rename_i k hk
    obtain ⟨a, ha, hpa, _⟩ := firstIndex_eq_some _ _ _ hk
    have hcount := countP_set (fun f : FileEntry => !f.is_deleted) h.files k a
      { tag := env.gen_tag
        filename := filename.take (c.FILENAME_SIZE - 1)
        file_size := size
        data_offset := wrapSub c.SPACE_MOD h.basket_size h.free_space
        creation_time := env.clock 1
        modification_time := env.clock 1
        access_time := env.clock 1
        data_type := c.DATA_TYPE_UNKNOWN
        permissions := 420
        is_deleted := false
        file_hash := env.hash (data.take size) } ha
    simp only [hpa, Bool.not_true, Bool.false_eq_true, if_false, Bool.not_false, if_true,
      Nat.add_zero] at hcount
    cases hr
    simp only [store_basket_hash, live_count, hcount]
    simp only [live_count] at hinv
    omega

theorem add_file_update_file_count (c : Consts) (env : Env) (h : BasketHeader)
    (filename data : List Nat) (size : Nat) (h1 : BasketHeader) (i : Nat)
    (hinv : h.file_count = live_count h.files)
    (hr : add_file_update c env h filename data size = .ok (h1, i)) :
    h1.file_count = live_count h1.files := by
  rcases (add_file_update_ok c env h filename data size h1 i hr).2 with
    ⟨_, hslot⟩ | ⟨_, _, hslot⟩
  · exact add_file_slot_file_count c env h filename data size h1 i hinv hslot
  · exact add_file_slot_file_count c env _ filename data size h1 i
      (compact_file_count c (env.clock 0) h hinv) hslot

theorem delete_file_update_file_count (c : Consts) (env : Env) (h : BasketHeader) (t : Tag)
    (h1 : BasketHeader) (f : FileEntry) (hinv : h.file_count = live_count h.files)
    (hr : delete_file_update c env h t = .ok (h1, f)) :
    h1.file_count = live_count h1.files := by
  unfold delete_file_update at hr
  split at hr
  · cases hr
  · rename_i k g hk
    obtain ⟨hg, hpg, _⟩ := (firstMatch_eq_some_iff _ _ _ _).1 hk
    simp only [Bool.and_eq_true, Bool.not_eq_true', beq_iff_eq] at hpg
    have hcount := countP_set (fun f : FileEntry => !f.is_deleted) h.files k g
      { g with is_deleted := true } hg
    simp only [hpg.1, Bool.not_false, if_true, Bool.not_true, Bool.false_eq_true, if_false,
      Nat.add_zero] at hcount
    simp only [live_count] at hinv
    have hpos : 1 ≤ h.file_count := by omega
    cases hr
    simp only [mark_deleted, store_basket_hash, live_count, wrapSub_of_le _ _ _ hpos]
    omega

theorem apply_op_file_count (c : Consts) (h h1 : BasketHeader) (op : HeaderOp)
    (hinv : h.file_count = live_count h.files) (hr : apply_op c h op = some h1) :
    h1.file_count = live_count h1.files := by
  cases op with
  | add env filename data size =>
    simp only [apply_op] at hr
    split at hr
    · rename_i r hok
      cases hr
      exact add_file_update_file_count c env h filename data size r.1 r.2 hinv hok
    · cases hr
  | delete env file_tag =>
    simp only [apply_op] at hr
    split at hr
    · rename_i r hok
      cases hr
      exact delete_file_update_file_count c env h file_tag r.1 r.2 hinv hok
    · cases hr
  | compact now =>
    simp only [apply_op, Option.some.injEq] at hr
    subst hr
    exact compact_file_count c now h hinv

theorem apply_ops_file_count (c : Consts) (ops : List HeaderOp) (h h1 : BasketHeader)
    (hinv : h.file_count = live_count h.files) (hr : apply_ops c h ops = some h1) :
    h1.file_count = live_count h1.files := by
  induction ops generalizing h with
  | nil =>
    simp only [apply_ops, Option.some.injEq] at hr
    subst hr
    exact hinv
  | cons op ops ih =>
    simp only [apply_ops] at hr
    split at hr
    · rename_i h2 hop
      exact ih h2 (apply_op_file_count c h h2 op hinv hop) hr
    · cases hr

/-- C3. Slot invariant for `file_count`: in the header built by create basket,
and in every header obtained from it by a finite sequence of successful
add-file, delete-file and compact header updates, `file_count` equals the number
of slots whose deleted flag is clear. -/
theorem C3_file_count_slot_invariant (c : Consts) (tag : Tag) (shelf_id now off : Nat)
    (ops : List HeaderOp) (h : BasketHeader)
    (hr : apply_ops c (create_basket_header c tag shelf_id now off) ops = some h) :
    h.file_count = (h.files.filter (fun f => f.is_deleted = false)).length := by
  have := apply_ops_file_count c ops _ h
    (by rw [live_count_create]; rfl) hr
  rw [this, live_count, List.countP_eq_length_filter]
  congr 2
  funext f
  cases f.is_deleted <;> rfl

/-- Witness of C3: two adds, a delete and a compaction on the sample header
leave one live slot. -/
theorem C3_file_count_slot_invariant_witness :
    apply_ops sampleConsts sampleHeader sampleOps = some sampleOpsHeader ∧
    sampleOpsHeader.file_count = 1 ∧
    sampleOpsHeader.file_count
      = (sampleOpsHeader.files.filter (fun f => f.is_deleted = false)).length :=
  ⟨by decide, by decide,
   C3_file_count_slot_invariant sampleConsts 7 0 1000 4096 sampleOps sampleOpsHeader
     (by decide)⟩

/-- Witness of C2: the sample header, then an add, a delete and a compaction. -/
theorem C2_space_invariant_witness :
    sampleConsts.HEADER_SIZE ≤ sampleConsts.BASKET_DEFAULT_SIZE ∧
    sampleHeader.basket_size < sampleConsts.SPACE_MOD ∧
    sampleHeader.used_space + sampleHeader.free_space = sampleHeader.basket_size ∧
    sampleAdded.1.used_space + sampleAdded.1.free_space = sampleAdded.1.basket_size ∧
    sampleDeleted.1.used_space + sampleDeleted.1.free_space = sampleDeleted.1.basket_size ∧
    (_fgsls_compact_basket sampleConsts 3000 sampleDeleted.1).used_space +
      (_fgsls_compact_basket sampleConsts 3000 sampleDeleted.1).free_space =
      (_fgsls_compact_basket sampleConsts 3000 sampleDeleted.1).basket_size :=
  ⟨by decide, by decide,
   (C2_space_invariant sampleConsts (by decide)).1 7 0 1000 4096,
   (C2_space_invariant sampleConsts (by decide)).2.1 (sampleEnv 8) sampleHeader aTxt
     (List.replicate 100 0) 100 sampleAdded.1 sampleAdded.2 (by decide) (by decide)
     (Or.inl (by decide)) (by rfl),
   (C2_space_invariant sampleConsts (by decide)).2.2.1 (sampleEnv 10) sampleAdded.1 8
     sampleDeleted.1 sampleDeleted.2 (by decide) (by decide) (by rfl) (by decide),
   (C2_space_invariant sampleConsts (by decide)).2.2.2 3000 sampleDeleted.1 (by decide)
     (by decide) (by decide)⟩

/-- C11. Oversized file rejected: on a mounted system, for every basket tag,
file name and data whose size exceeds `BASKET_MAX_FILE_SIZE` (and whatever the
pointer arguments are), add file returns InvalidParameter, stores no file tag,
hands no header to `_fgsls_write_basket_header` and leaves the whole system
state unchanged. -/
theorem C11_oversized_file_rejected (c : Consts) (env : Env) (p : AddPtrs) (s : System)
    (basket_tag : Tag) (filename data : List Nat) (size : Nat) (hm : s.is_mounted = true)
    (hs : size > c.BASKET_MAX_FILE_SIZE) :
    fgsls_add_file_to_basket c env p s basket_tag filename data size
      = ⟨ErrorCode.INVALID_PARAMETER, s, none, none⟩ := by
  rcases add_ptrs_cases p size with hinv | ⟨hp, h0⟩
  · exact add_invalid c env p s basket_tag filename data size hinv
  · subst hp
    unfold fgsls_add_file_to_basket
    simp [AddPtrs.valid, h0, hm, hs]

/-- Witness of C11: a 5000-byte file on the sample system. -/
theorem C11_oversized_file_rejected_witness :
    sampleSystem.is_mounted = true ∧ 5000 > sampleConsts.BASKET_MAX_FILE_SIZE ∧
    fgsls_add_file_to_basket sampleConsts (sampleEnv 8) AddPtrs.valid sampleSystem 7 aTxt
      (List.replicate 5000 0) 5000 = ⟨ErrorCode.INVALID_PARAMETER, sampleSystem, none, none⟩ :=
  ⟨by decide, by decide,
   C11_oversized_file_rejected sampleConsts (sampleEnv 8) AddPtrs.valid sampleSystem 7 aTxt
     (List.replicate 5000 0) 5000 (by decide) (by decide)⟩

theorem locate_basket_with_loader (c : Consts) (s : System) (t : Tag) :
    locate_basket c s t = locate_basket_with (_fgsls_read_basket_header c) s t := rfl

theorem read_file_with_loader (c : Consts) (env : Env) (p : ReadPtrs) (s : System) (t : Tag)
    (buffer : List Nat) (size : Nat) :
    fgsls_read_file_from_basket c env p s t buffer size
      = read_file_with (_fgsls_read_basket_header c) c env p s t buffer size := rfl

theorem delete_file_with_loader (c : Consts) (env : Env) (p : DeletePtrs) (s : System)
    (t : Tag) :
    fgsls_delete_file_from_basket c env p s t
      = delete_file_with (_fgsls_read_basket_header c) c env p s t := rfl

/-- With the dummy header of `_fgsls_read_basket_header` every slot has size 0,
so `fgsls_read_file_from_basket`, called with non-null pointers, never reports a
required size: it never returns InvalidParameter. -/
theorem read_never_undersized (c : Consts) (env : Env) (s : System) (t : Tag)
    (buffer : List Nat) (size : Nat) :
    (fgsls_read_file_from_basket c env ReadPtrs.valid s t buffer size).code
      ≠ ErrorCode.INVALID_PARAMETER := by
  rcases read_cases c env ReadPtrs.valid s t buffer size with
    ⟨hinv, _⟩ | ⟨_, _, hr⟩ | ⟨_, _, e, hl, hr⟩ | ⟨_, _, loc, hl, hcase⟩
  · rcases hinv with h | h | h | h <;> cases h
  · rw [hr]; simp
  · rw [hr]
    rcases locate_basket_error c s t e hl with he | he <;> (rw [he]; simp)
  · rcases hcase with ⟨_, hr⟩ | ⟨i, f, hf, ⟨hlt, _⟩ | ⟨_, _, hr⟩ | ⟨_, _, hr⟩⟩
    · rw [hr]; simp
    · obtain ⟨_, _, hread⟩ := locate_basket_ok c s t loc hl
      obtain ⟨_, _, _, _, _, hfiles⟩ := read_basket_header_ok c s _ _ hread
      have hmem : f ∈ loc.header.files :=
        List.getElem?_mem ((firstMatch_eq_some_iff _ _ _ _).1 hf).1
      rw [hfiles] at hmem
      have hz : f = zeroFileEntry := (List.mem_replicate.1 hmem).2
      rw [hz] at hlt
      simp [zeroFileEntry] at hlt
    · rw [hr]; simp
    · rw [hr]; simp

/-- C13. Undersized read buffer, for the code of read file over every header
store `load`: on a mounted system on which the tag resolution yields the header
`loc.header` and the tag `t` is found in its live slot `f`, a read with a
capacity below `f.file_size` returns InvalidParameter, reports `f.file_size` as
the required size, leaves the buffer untouched, writes no header back and leaves
the whole system state (index entry statistics, `total_reads`) unchanged; and
`fgsls_read_file_from_basket` is that code over `_fgsls_read_basket_header`. -/
theorem C13_undersized_read_buffer (load : System → Tag → Except ErrorCode BasketHeader)
    (c : Consts) (env : Env) (s : System) (t : Tag) (loc : BasketLocation)
    (buffer : List Nat) (size : Nat) (i : Nat) (f : FileEntry)
    (hm : s.is_mounted = true) (hl : locate_basket_with load s t = .ok loc)
    (hf : find_file_entry loc.header t = some (i, f)) (hsz : size < f.file_size) :
    read_file_with load c env ReadPtrs.valid s t buffer size
      = ⟨ErrorCode.INVALID_PARAMETER, s, buffer, f.file_size, none⟩ ∧
    (∀ p, fgsls_read_file_from_basket c env p s t buffer size
      = read_file_with (_fgsls_read_basket_header c) c env p s t buffer size) := by
  refine ⟨?_, fun p => rfl⟩
  unfold read_file_with
  simp only [ReadPtrs.valid, hm, hl, Bool.not_true, Bool.or_self, Bool.false_eq_true,
    if_false]
  unfold read_located
  simp [hf, hsz]

/-- Witness of C13: the index of `addedSystem` resolves tag 8 to basket 7, whose
stored header holds the 100-byte file; reading it into a buffer of 10 bytes. -/
theorem C13_undersized_read_buffer_witness :
    addedSystem.is_mounted = true ∧
    locate_basket_with sampleStore addedSystem 8
      = .ok ⟨1, addedFileEntry, 7, sampleAdded.1⟩ ∧
    read_file_with sampleStore sampleConsts (sampleEnv 20) ReadPtrs.valid addedSystem 8
      (List.replicate 10 5) 10
      = ⟨ErrorCode.INVALID_PARAMETER, addedSystem, List.replicate 10 5, 100, none⟩ :=
  ⟨by decide, by rfl,
   (C13_undersized_read_buffer sampleStore sampleConsts (sampleEnv 20) addedSystem 8
    ⟨1, addedFileEntry, 7, sampleAdded.1⟩ (List.replicate 10 5) 10 sampleAdded.2
    (sampleAdded.1.files.getD sampleAdded.2 zeroFileEntry) (by decide) (by rfl) (by rfl)
    (by decide)).1⟩

theorem delete_of_locate_ok (c : Consts) (env : Env) (s : System) (t : Tag)
    (loc : BasketLocation) (hm : s.is_mounted = true) (hl : locate_basket c s t = .ok loc) :
    fgsls_delete_file_from_basket c env DeletePtrs.valid s t = delete_located c env s t loc := by
  unfold fgsls_delete_file_from_basket
  simp [DeletePtrs.valid, hm, hl]

theorem firstIndex_eq_none_iff {α : Type} (p : α → Bool) (l : List α) :
    firstIndex p l = none ↔ ∀ x ∈ l, p x = false := by
  induction l with
  | nil => simp [firstIndex]
  | cons a l ih =>
    by_cases h : p a = true
    · simp [firstIndex, h]
    · simp [firstIndex, h, ih]

theorem firstIndex_map {α β : Type} (p : β → Bool) (g : α → β) (l : List α) :
    firstIndex p (l.map g) = firstIndex (fun x => p (g x)) l := by
  induction l with
  | nil => rfl
  | cons a l ih => simp only [List.map_cons, firstIndex, ih]

theorem find_free_slot_none_iff (h : BasketHeader) :
    _fgsls_find_free_file_slot h = none ↔ ∀ f ∈ h.files, f.is_deleted = false := by
  unfold _fgsls_find_free_file_slot
  exact firstIndex_eq_none_iff _ _

theorem find_free_slot_compact (c : Consts) (now : Nat) (h : BasketHeader) :
    _fgsls_find_free_file_slot (_fgsls_compact_basket c now h) = _fgsls_find_free_file_slot h := by
  unfold _fgsls_compact_basket _fgsls_find_free_file_slot
  by_cases hd : h.deleted_count = 0
  · simp [hd]
  · simp only [hd, if_false, firstIndex_map, compact_slot_is_deleted]

theorem add_file_slot_error_iff (c : Consts) (env : Env) (h : BasketHeader)
    (filename data : List Nat) (n : Nat) (e : ErrorCode) :
    add_file_slot c env h filename data n = .error e ↔
      (e = ErrorCode.BASKET_FULL ∧ _fgsls_find_free_file_slot h = none) := by
  unfold add_file_slot
  cases hs : _fgsls_find_free_file_slot h with
  | none =>
    simp only [and_true]
    constructor
    · intro he; cases he; rfl
    · intro he; rw [he]
  | some i => simp

theorem add_file_slot_compaction_count (c : Consts) (env : Env) (h : BasketHeader)
    (filename data : List Nat) (n : Nat) (h1 : BasketHeader) (i : Nat)
    (hr : add_file_slot c env h filename data n = .ok (h1, i)) :
    h1.compaction_count = h.compaction_count := by
  unfold add_file_slot at hr
  split at hr
  · cases hr
  · cases hr
    rfl

theorem compact_compaction_count_le (c : Consts) (now : Nat) (h : BasketHeader) :
    (_fgsls_compact_basket c now h).compaction_count ≤ h.compaction_count + 1 := by
  unfold _fgsls_compact_basket
  by_cases hd : h.deleted_count = 0
  · simp [hd]
  · simp only [hd, if_false]
    exact wrapAdd_le _ _ _

theorem add_file_update_unfold (c : Consts) (env : Env) (h : BasketHeader)
    (filename data : List Nat) (n : Nat) :
    (c.BASKET_MAX_FILES ≤ h.file_count →
      add_file_update c env h filename data n = .error ErrorCode.BASKET_FULL) ∧
    (h.file_count < c.BASKET_MAX_FILES → n ≤ h.free_space →
      add_file_update c env h filename data n = add_file_slot c env h filename data n) ∧
    (h.file_count < c.BASKET_MAX_FILES → h.free_space < n →
      (_fgsls_compact_basket c (env.clock 0) h).free_space < n →
      add_file_update c env h filename data n = .error ErrorCode.BASKET_FULL) ∧
    (h.file_count < c.BASKET_MAX_FILES → h.free_space < n →
      n ≤ (_fgsls_compact_basket c (env.clock 0) h).free_space →
      add_file_update c env h filename data n =
        add_file_slot c env (_fgsls_compact_basket c (env.clock 0) h) filename data n) := by
  refine ⟨?_, ?_, ?_, ?_⟩
  · intro h0
    unfold add_file_update
    simp [h0]
  · intro h0 h1
    have h0n : ¬ c.BASKET_MAX_FILES ≤ h.file_count := by omega
    have h1n : ¬ h.free_space < n := by omega
    unfold add_file_update
    simp [h0n, h1n]
  · intro h0 h1 h2
    have h0n : ¬ c.BASKET_MAX_FILES ≤ h.file_count := by omega
    unfold add_file_update
    simp [h0n, h1, h2]
  · intro h0 h1 h2
    have h0n : ¬ c.BASKET_MAX_FILES ≤ h.file_count := by omega
    have h2n : ¬ (_fgsls_compact_basket c (env.clock 0) h).free_space < n := by omega
    unfold add_file_update
    simp [h0n, h1, h2n]

theorem add_file_update_full_iff (c : Consts) (env : Env) (h : BasketHeader)
    (filename data : List Nat) (n : Nat) :
    add_file_update c env h filename data n = .error ErrorCode.BASKET_FULL ↔
      (c.BASKET_MAX_FILES ≤ h.file_count ∨
       (h.free_space < n ∧ (_fgsls_compact_basket c (env.clock 0) h).free_space < n) ∨
       (∀ f ∈ h.files, f.is_deleted = false)) := by
  obtain ⟨u1, u2, u3, u4⟩ := add_file_update_unfold c env h filename data n
  by_cases h0 : c.BASKET_MAX_FILES ≤ h.file_count
  · simp [u1 h0, h0]
  · have h0l : h.file_count < c.BASKET_MAX_FILES := by omega
    by_cases h1 : h.free_space < n
    · by_cases h2 : (_fgsls_compact_basket c (env.clock 0) h).free_space < n
      · simp [u3 h0l h1 h2, h1, h2]
      · rw [u4 h0l h1 (by omega), add_file_slot_error_iff, find_free_slot_compact,
          find_free_slot_none_iff]
        simp [h0, h2]
    · rw [u2 h0l (by omega), add_file_slot_error_iff, find_free_slot_none_iff]
      simp [h0, h1]

theorem add_file_update_error (c : Consts) (env : Env) (h : BasketHeader)
    (filename data : List Nat) (n : Nat) (e : ErrorCode)
    (he : add_file_update c env h filename data n = .error e) : e = ErrorCode.BASKET_FULL := by
  obtain ⟨u1, u2, u3, u4⟩ := add_file_update_unfold c env h filename data n
  by_cases h0 : c.BASKET_MAX_FILES ≤ h.file_count
  · rw [u1 h0] at he; cases he; rfl
  · have h0l : h.file_count < c.BASKET_MAX_FILES := by omega
    by_cases h1 : h.free_space < n
    · by_cases h2 : (_fgsls_compact_basket c (env.clock 0) h).free_space < n
      · rw [u3 h0l h1 h2] at he; cases he; rfl
      · rw [u4 h0l h1 (by omega)] at he
        exact ((add_file_slot_error_iff c env _ filename data n e).1 he).1
    · rw [u2 h0l (by omega)] at he
      exact ((add_file_slot_error_iff c env _ filename data n e).1 he).1

/-- C12. When add file reports BasketFull. For every loaded header `h` and every
request of size `n`, the header update of add file fails exactly when
`h.file_count >= BASKET_MAX_FILES` (whatever `h.free_space` is), or
`h.free_space < n` and the free space after one run of the compactor on `h` is
still below `n`, or no slot of `h` has the deleted flag set; BasketFull is its
only error. The compactor is not run when `n <= h.free_space` and is run once
otherwise: a successful update leaves `compaction_count` unchanged in the first
case and raises it by at most one in the second. On a mounted system and a valid
request (non-null pointers, size and name length within their limits) for which
`h` is the loaded header, `fgsls_add_file_to_basket` returns BasketFull exactly
when the header update fails. -/
theorem C12_basket_full_condition (c : Consts) (env : Env) (h : BasketHeader)
    (filename data : List Nat) (n : Nat) :
    (add_file_update c env h filename data n = .error ErrorCode.BASKET_FULL ↔
      (c.BASKET_MAX_FILES ≤ h.file_count ∨
       (h.free_space < n ∧ (_fgsls_compact_basket c (env.clock 0) h).free_space < n) ∨
       (∀ f ∈ h.files, f.is_deleted = false))) ∧
    (∀ e, add_file_update c env h filename data n = .error e → e = ErrorCode.BASKET_FULL) ∧
    (h.file_count < c.BASKET_MAX_FILES → n ≤ h.free_space →
      add_file_update c env h filename data n = add_file_slot c env h filename data n) ∧
    (h.file_count < c.BASKET_MAX_FILES → h.free_space < n →
      n ≤ (_fgsls_compact_basket c (env.clock 0) h).free_space →
      add_file_update c env h filename data n =
        add_file_slot c env (_fgsls_compact_basket c (env.clock 0) h) filename data n) ∧
    (∀ h1 i, add_file_update c env h filename data n = .ok (h1, i) →
      (n ≤ h.free_space → h1.compaction_count = h.compaction_count) ∧
      h1.compaction_count ≤ h.compaction_count + 1) ∧
    (∀ s basket_tag, s.is_mounted = true → n ≠ 0 → n ≤ c.BASKET_MAX_FILE_SIZE →
      filename.length < c.MAX_FILENAME_LENGTH →
      _fgsls_read_basket_header c s basket_tag = .ok h →
      ((fgsls_add_file_to_basket c env AddPtrs.valid s basket_tag filename data n).code
          = ErrorCode.BASKET_FULL ↔
        add_file_update c env h filename data n = .error ErrorCode.BASKET_FULL)) := by
  obtain ⟨_, u2, _, u4⟩ := add_file_update_unfold c env h filename data n
  refine ⟨add_file_update_full_iff c env h filename data n,
    fun e he => add_file_update_error c env h filename data n e he, u2, u4, ?_, ?_⟩
  · intro h1 i hr
    rcases add_file_update_ok c env h filename data n h1 i hr with
      ⟨_, ⟨hle, hslot⟩ | ⟨hlt, _, hslot⟩⟩
    · have := add_file_slot_compaction_count c env h filename data n h1 i hslot
      exact ⟨fun _ => this, by omega⟩
    · have := add_file_slot_compaction_count c env _ filename data n h1 i hslot
      have hle := compact_compaction_count_le c (env.clock 0) h
      exact ⟨fun hge => by omega, by omega⟩
  · intro s basket_tag hm hn hmax hname hread
    obtain ⟨_, hd, _, hfree, _, _⟩ := read_basket_header_ok c s basket_tag h hread
    have hupd := add_file_update_no_space c env h filename data n hn hfree hd
    have hmaxn : ¬ n > c.BASKET_MAX_FILE_SIZE := by omega
    have hnamen : ¬ filename.length ≥ c.MAX_FILENAME_LENGTH := by omega
    have hcode : (fgsls_add_file_to_basket c env AddPtrs.valid s basket_tag filename data n).code
        = ErrorCode.BASKET_FULL := by
      unfold fgsls_add_file_to_basket
      simp [AddPtrs.valid, hn, hm, hmaxn, hnamen, hread, hupd]
    simp [hcode, hupd]

/-- Witness of C12: with all eight slots in use the update fails although bytes
remain free; and on the empty sample header a 100-byte add needs no compaction. -/
theorem C12_basket_full_condition_witness :
    fullHeader.free_space ≥ 10 ∧
    add_file_update sampleConsts (sampleEnv 30) fullHeader aTxt (List.replicate 10 0) 10
      = .error ErrorCode.BASKET_FULL ∧
    sampleAdded.1.compaction_count = sampleHeader.compaction_count :=
  ⟨by decide,
   (C12_basket_full_condition sampleConsts (sampleEnv 30) fullHeader aTxt
     (List.replicate 10 0) 10).1.2 (Or.inl (by decide)),
   ((C12_basket_full_condition sampleConsts (sampleEnv 8) sampleHeader aTxt
     (List.replicate 100 0) 100).2.2.2.2.1 sampleAdded.1 sampleAdded.2 (by rfl)).1
     (by decide)⟩

/-- C17. Idempotent compaction: compacting a compacted header changes nothing,
in any field and whatever the clock readings of the two runs are, and the
compactor returns a header with `deleted_count = 0` unchanged. -/
theorem C17_idempotent_compaction (c : Consts) (now1 now2 : Nat) (h : BasketHeader) :
    _fgsls_compact_basket c now2 (_fgsls_compact_basket c now1 h)
      = _fgsls_compact_basket c now1 h ∧
    (h.deleted_count = 0 → _fgsls_compact_basket c now1 h = h) := by
  constructor
  · by_cases hd : h.deleted_count = 0
    · simp [_fgsls_compact_basket, hd]
    · have h1 : (_fgsls_compact_basket c now1 h).deleted_count = 0 := by
        simp [_fgsls_compact_basket, hd]
      generalize _fgsls_compact_basket c now1 h = g at h1
      simp [_fgsls_compact_basket, h1]
  · intro hd
    simp [_fgsls_compact_basket, hd]

/-- Witness of C17: the sample header after an add and a delete is compacted
twice; the created sample header has nothing to compact. -/
theorem C17_idempotent_compaction_witness :
    sampleDeleted.1.deleted_count = 1 ∧
    _fgsls_compact_basket sampleConsts 4000 (_fgsls_compact_basket sampleConsts 3000 sampleDeleted.1)
      = _fgsls_compact_basket sampleConsts 3000 sampleDeleted.1 ∧
    sampleHeader.deleted_count = 0 ∧
    _fgsls_compact_basket sampleConsts 3000 sampleHeader = sampleHeader :=
  ⟨by decide,
   (C17_idempotent_compaction sampleConsts 3000 4000 sampleDeleted.1).1,
   by decide,
   (C17_idempotent_compaction sampleConsts 3000 4000 sampleHeader).2 (by decide)⟩

theorem sum_map_ite_eq_sum_filter {α : Type} (p : α → Bool) (g : α → Nat) (l : List α) :
    (l.map (fun x => if p x then g x else 0)).sum = ((l.filter p).map g).sum := by
  induction l with
  | nil => rfl
  | cons a l ih =>
    by_cases h : p a = true
    · simp only [List.map_cons, List.sum_cons, h, if_true, List.filter_cons, ih]
    · simp only [List.map_cons, List.sum_cons, h, if_false, List.filter_cons, ih,
        Bool.false_eq_true, Nat.zero_add]

theorem reclaimed_space_eq_deleted_bytes (files : List FileEntry) :
    reclaimed_space files = deleted_bytes files % 2 ^ 64 := by
  have hp : (fun f : FileEntry => f.is_deleted && decide (f.file_size > 0))
      = (fun f : FileEntry => f.is_deleted && decide (f.file_size ≠ 0)) := by
    funext f
    by_cases hz : f.file_size = 0
    · simp [hz]
    · have hpos : f.file_size > 0 := by omega
      simp [hz, hpos]
  unfold reclaimed_space deleted_bytes
  rw [← hp, sum_map_ite_eq_sum_filter]

theorem compact_slot_of_deleted (f : FileEntry) (hd : f.is_deleted = true)
    (hz : f.file_size ≠ 0) : compact_slot f = unusedFileEntry := by
  have hpos : f.file_size > 0 := by omega
  simp [compact_slot, hd, hpos]

theorem compact_slot_of_other (f : FileEntry) (h : ¬ (f.is_deleted = true ∧ f.file_size ≠ 0)) :
    compact_slot f = f := by
  unfold compact_slot
  by_cases hd : f.is_deleted = true
  · have hz : f.file_size = 0 := by
      by_cases hz : f.file_size = 0
      · exact hz
      · exact absurd ⟨hd, hz⟩ h
    simp [hd, hz]
  · simp [hd]

/-- C18, as stated, fails: the header `nearMaxFreeHeader` has `deleted_count = 1`,
one soft-deleted slot of 100 bytes (`R = 100`), `free_space = 2 ^ 64 - 50`,
`used_space = 40` and `compaction_count = 2 ^ 32 - 1`; after the compactor
`free_space` is 50, not `free_space + R`, `used_space` is `2 ^ 64 - 60` although
`R` exceeds the prior `used_space`, and `compaction_count` is 0, not
`compaction_count + 1`. -/
theorem C18_compaction_accounting_counterexample :
    nearMaxFreeHeader.deleted_count > 0 ∧
    deleted_bytes nearMaxFreeHeader.files = 100 ∧
    nearMaxFreeHeader.free_space = 2 ^ 64 - 50 ∧
    (_fgsls_compact_basket sampleConsts 3000 nearMaxFreeHeader).free_space = 50 ∧
    50 ≠ nearMaxFreeHeader.free_space + deleted_bytes nearMaxFreeHeader.files ∧
    nearMaxFreeHeader.used_space = 40 ∧
    (_fgsls_compact_basket sampleConsts 3000 nearMaxFreeHeader).used_space = 2 ^ 64 - 60 ∧
    nearMaxFreeHeader.used_space < deleted_bytes nearMaxFreeHeader.files ∧
    nearMaxFreeHeader.compaction_count = 2 ^ 32 - 1 ∧
    (_fgsls_compact_basket sampleConsts 3000 nearMaxFreeHeader).compaction_count = 0 ∧
    0 ≠ nearMaxFreeHeader.compaction_count + 1 := by
  decide

/-- C18 (amended). Compaction accounting: for every header `h` with
`deleted_count > 0` (whose `used_space` is a value of the type of the space
fields, which is at most 64 bits wide), where `R` is the sum of `file_size` over
the slots of `h` that have the deleted flag set and a nonzero size, the
compactor yields `deleted_count = 0` and the stamp `last_compaction`, each of
those slots becomes the all-zero slot marked deleted, every other slot and every
other header field is unchanged, and, as long as the results stay within the
range of their unsigned types, it yields `free_space = h.free_space + R` (when
`h.free_space + R < SPACE_MOD`), `used_space = h.used_space - R` (when
`R <= h.used_space`) and `compaction_count = h.compaction_count + 1` (when
`h.compaction_count + 1 < COUNT_MOD`). -/
theorem C18_compaction_accounting (c : Consts) (now : Nat) (h : BasketHeader)
    (hw : c.SPACE_MOD ≤ 2 ^ 64) (ht : h.used_space < c.SPACE_MOD)
    (hd : h.deleted_count > 0) :
    (h.free_space + deleted_bytes h.files < c.SPACE_MOD →
      (_fgsls_compact_basket c now h).free_space = h.free_space + deleted_bytes h.files) ∧
    (deleted_bytes h.files ≤ h.used_space →
      (_fgsls_compact_basket c now h).used_space = h.used_space - deleted_bytes h.files) ∧
    (_fgsls_compact_basket c now h).deleted_count = 0 ∧
    (h.compaction_count + 1 < c.COUNT_MOD →
      (_fgsls_compact_basket c now h).compaction_count = h.compaction_count + 1) ∧
    (_fgsls_compact_basket c now h).last_compaction = now ∧
    (_fgsls_compact_basket c now h).files.length = h.files.length ∧
    (∀ (i : Nat) (f : FileEntry), h.files[i]? = some f →
      (f.is_deleted = true ∧ f.file_size ≠ 0 →
        (_fgsls_compact_basket c now h).files[i]? = some unusedFileEntry) ∧
      (¬ (f.is_deleted = true ∧ f.file_size ≠ 0) →
        (_fgsls_compact_basket c now h).files[i]? = some f)) ∧
    (_fgsls_compact_basket c now h).tag = h.tag ∧
    (_fgsls_compact_basket c now h).shelf_id = h.shelf_id ∧
    (_fgsls_compact_basket c now h).basket_size = h.basket_size ∧
    (_fgsls_compact_basket c now h).file_count = h.file_count ∧
    (_fgsls_compact_basket c now h).creation_time = h.creation_time ∧
    (_fgsls_compact_basket c now h).physical_offset = h.physical_offset ∧
    (_fgsls_compact_basket c now h).basket_hash = h.basket_hash := by
  have hne : ¬ h.deleted_count = 0 := by omega
  have hc : _fgsls_compact_basket c now h =
      { h with
        files := h.files.map compact_slot
        free_space := wrapAdd c.SPACE_MOD h.free_space (reclaimed_space h.files)
        used_space := wrapSub c.SPACE_MOD h.used_space (reclaimed_space h.files)
        deleted_count := 0
        last_compaction := now
        compaction_count := wrapAdd c.COUNT_MOD h.compaction_count 1 } := by
    simp [_fgsls_compact_basket, hne]
  rw [hc, reclaimed_space_eq_deleted_bytes]
  refine ⟨?_, ?_, rfl, ?_, rfl, by simp, ?_, rfl, rfl, rfl, rfl, rfl, rfl, rfl⟩
  · intro hfit
    show wrapAdd c.SPACE_MOD h.free_space (deleted_bytes h.files % 2 ^ 64) = _
    rw [Nat.mod_eq_of_lt (by omega)]
    exact wrapAdd_of_lt _ _ _ hfit
  · intro hle
    show wrapSub c.SPACE_MOD h.used_space (deleted_bytes h.files % 2 ^ 64) = _
    rw [Nat.mod_eq_of_lt (by omega)]
    exact wrapSub_of_le _ _ _ hle
  · intro hfit
    exact wrapAdd_of_lt _ _ _ hfit
  · intro i f hf
    have hmap : (h.files.map compact_slot)[i]? = some (compact_slot f) := by
      simp [hf]
    constructor
    · intro hdz
      show (h.files.map compact_slot)[i]? = some unusedFileEntry
      rw [hmap, compact_slot_of_deleted f hdz.1 hdz.2]
    · intro hdz
      show (h.files.map compact_slot)[i]? = some f
      rw [hmap, compact_slot_of_other f hdz]

/-- Witness of C18: compacting the sample header after an add and a delete of a
100-byte file. -/
theorem C18_compaction_accounting_witness :
    sampleConsts.SPACE_MOD ≤ 2 ^ 64 ∧ sampleDeleted.1.used_space < sampleConsts.SPACE_MOD ∧
    sampleDeleted.1.deleted_count > 0 ∧ deleted_bytes sampleDeleted.1.files = 100 ∧
    (_fgsls_compact_basket sampleConsts 3000 sampleDeleted.1).free_space
      = sampleDeleted.1.free_space + deleted_bytes sampleDeleted.1.files ∧
    (_fgsls_compact_basket sampleConsts 3000 sampleDeleted.1).used_space
      = sampleDeleted.1.used_space - deleted_bytes sampleDeleted.1.files ∧
    (_fgsls_compact_basket sampleConsts 3000 sampleDeleted.1).compaction_count
      = sampleDeleted.1.compaction_count + 1 ∧
    (_fgsls_compact_basket sampleConsts 3000 sampleDeleted.1).files[0]?
      = some unusedFileEntry :=
  ⟨by decide, by decide, by decide, by decide,
   (C18_compaction_accounting sampleConsts 3000 sampleDeleted.1 (by decide) (by decide)
     (by decide)).1 (by decide),
   (C18_compaction_accounting sampleConsts 3000 sampleDeleted.1 (by decide) (by decide)
     (by decide)).2.1 (by decide),
   (C18_compaction_accounting sampleConsts 3000 sampleDeleted.1 (by decide) (by decide)
     (by decide)).2.2.2.1 (by decide),
   ((C18_compaction_accounting sampleConsts 3000 sampleDeleted.1 (by decide) (by decide)
      (by decide)).2.2.2.2.2.2.1 0 (sampleDeleted.1.files.getD 0 zeroFileEntry)
      (by decide)).1 (by decide)⟩

theorem store_basket_hash_stored (env : Env) (h : BasketHeader) :
    hash_stored env (store_basket_hash env h) = true := by
  simp [hash_stored, store_basket_hash]

/-- The header that the add-file update hands on carries a fresh integrity
hash. -/
theorem add_file_update_hash_stored (c : Consts) (env : Env) (h : BasketHeader)
    (filename data : List Nat) (n : Nat) (h1 : BasketHeader) (i : Nat)
    (hr : add_file_update c env h filename data n = .ok (h1, i)) :
    hash_stored env h1 = true := by
  have hslot : ∀ g, add_file_slot c env g filename data n = .ok (h1, i) →
      hash_stored env h1 = true := by
    intro g hg
    unfold add_file_slot at hg
    split at hg
    · cases hg
    · cases hg
      exact store_basket_hash_stored env _
  rcases (add_file_update_ok c env h filename data n h1 i hr).2 with
    ⟨_, hs⟩ | ⟨_, _, hs⟩
  · exact hslot _ hs
  · exact hslot _ hs

/-- The header that the delete-file update hands on carries a fresh integrity
hash. -/
theorem delete_file_update_hash_stored (c : Consts) (env : Env) (h : BasketHeader) (t : Tag)
    (h1 : BasketHeader) (f : FileEntry)
    (hr : delete_file_update c env h t = .ok (h1, f)) : hash_stored env h1 = true := by
  unfold delete_file_update at hr
  split at hr
  · cases hr
  · cases hr
    exact store_basket_hash_stored env _

/-- C15, evaluated. With the collaborators `auditEnv`: the header that
`fgsls_create_basket` hands to `_fgsls_write_basket_header` has the all-zero
hash field, which is not the hash of the header; the header that a successful
`fgsls_read_file_from_basket` hands on has a hash field that is not the hash of
the header either; and when the read body starts from a header produced by add
file (whose stored hash is right), the header it writes back after stamping the
access time carries the old hash, which no longer matches. -/
theorem C15_create_and_read_skip_hash :
    (fgsls_create_basket sampleConsts (auditEnv 7 1000) CreatePtrs.valid sampleSystem 0).code
      = ErrorCode.SUCCESS ∧
    (fgsls_create_basket sampleConsts (auditEnv 7 1000) CreatePtrs.valid sampleSystem 0).written.map
      (hash_stored (auditEnv 7 1000)) = some false ∧
    (fgsls_read_file_from_basket sampleConsts (auditEnv 0 5000) ReadPtrs.valid storedSystem 0
      [5, 6, 7] 3).code
      = ErrorCode.SUCCESS ∧
    (fgsls_read_file_from_basket sampleConsts (auditEnv 0 5000) ReadPtrs.valid storedSystem 0
      [5, 6, 7] 3).written.map (hash_stored (auditEnv 0 5000)) = some false ∧
    hash_stored (auditEnv 0 5000) auditAdded.1 = true ∧
    (read_located sampleConsts (auditEnv 0 5000) storedSystem 8 auditLocation
      (List.replicate 128 5) 128).code = ErrorCode.SUCCESS ∧
    (read_located sampleConsts (auditEnv 0 5000) storedSystem 8 auditLocation
      (List.replicate 128 5) 128).written.map (hash_stored (auditEnv 0 5000)) = some false := by
  decide

/-- C16, evaluated. After adding a 100-byte file, deleting it and adding a
50-byte file to the sample header (all three updates succeed), the second add
has reused the soft-deleted slot: `deleted_count` is 1 while no slot has the
deleted flag set together with a nonzero size. Right after the delete the two
numbers agree. -/
theorem C16_deleted_count_drifts :
    apply_ops sampleConsts sampleHeader reuseOps = some reuseHeader ∧
    reuseHeader.deleted_count = 1 ∧
    deleted_with_data reuseHeader.files = 0 ∧
    sampleDeleted.1.deleted_count = 1 ∧
    deleted_with_data sampleDeleted.1.files = 1 := by
  decide

/-- C19, evaluated. After adding a 100-byte and a 50-byte file to the sample
header and deleting the first, `used_space` is the header size plus the live
bytes (4146); the compaction that follows subtracts the deleted 100 bytes a
second time, so `used_space` is 4046 while the header size plus the live bytes is
still 4146. -/
theorem C19_compaction_subtracts_twice :
    apply_ops sampleConsts sampleHeader beforeCompactOps = some beforeCompactHeader ∧
    beforeCompactHeader.used_space = 4146 ∧
    sampleConsts.HEADER_SIZE + live_bytes beforeCompactHeader.files = 4146 ∧
    apply_ops sampleConsts sampleHeader sampleOps = some sampleOpsHeader ∧
    sampleOpsHeader = _fgsls_compact_basket sampleConsts 3000 beforeCompactHeader ∧
    sampleOpsHeader.used_space = 4046 ∧
    sampleConsts.HEADER_SIZE + live_bytes sampleOpsHeader.files = 4146 := by
  decide

/-- C20, evaluated. After adding a 100-byte file (tag 8) and a 50-byte file
(tag 9) to the sample header, deleting the first and adding another 100-byte
file (tag 10), slots 0 and 1 are both live, slot 0 holds the new file at bytes
4146 to 4245 and slot 1 holds the file with tag 9 at bytes 4196 to 4245: the two
ranges overlap. -/
theorem C20_live_files_overlap :
    apply_ops sampleConsts sampleHeader overlapOps = some overlapHeader ∧
    (overlapHeader.files.getD 0 zeroFileEntry).is_deleted = false ∧
    (overlapHeader.files.getD 1 zeroFileEntry).is_deleted = false ∧
    (overlapHeader.files.getD 0 zeroFileEntry).tag = 10 ∧
    (overlapHeader.files.getD 1 zeroFileEntry).tag = 9 ∧
    (overlapHeader.files.getD 0 zeroFileEntry).data_offset = 4146 ∧
    (overlapHeader.files.getD 0 zeroFileEntry).file_size = 100 ∧
    (overlapHeader.files.getD 1 zeroFileEntry).data_offset = 4196 ∧
    (overlapHeader.files.getD 1 zeroFileEntry).file_size = 50 ∧
    ranges_overlap (overlapHeader.files.getD 0 zeroFileEntry)
      (overlapHeader.files.getD 1 zeroFileEntry) = true := by
  decide

/-- C23. Index insert: if `entry_count >= max_entries` the insert fails with
OutOfMemory and the index is unchanged; otherwise it succeeds, the capacity is
unchanged, the entries are the old ones followed by exactly one new entry (so
`entry_count` grows by one), and the new entry carries the file tag, the shelf id
and the physical offset, with kind `BASKET`, internal offset 0 and size
`BASKET_DEFAULT_SIZE` when the file tag equals the basket tag, and kind
`BASKET_FILE`, the given internal offset and size 0 otherwise. -/
theorem C23_index_insert (c : Consts) (taver : TaverIndex) (basket_tag file_tag : Tag)
    (shelf_id physical_offset internal_offset t_access t_update : Nat) :
    (taver.entries.length ≥ taver.max_entries →
      _fgsls_update_basket_position c taver basket_tag file_tag shelf_id physical_offset
        internal_offset t_access t_update = (ErrorCode.OUT_OF_MEMORY, taver)) ∧
    (taver.entries.length < taver.max_entries →
      (_fgsls_update_basket_position c taver basket_tag file_tag shelf_id physical_offset
        internal_offset t_access t_update).1 = ErrorCode.SUCCESS ∧
      (_fgsls_update_basket_position c taver basket_tag file_tag shelf_id physical_offset
        internal_offset t_access t_update).2.max_entries = taver.max_entries ∧
      (_fgsls_update_basket_position c taver basket_tag file_tag shelf_id physical_offset
        internal_offset t_access t_update).2.entries.length = taver.entries.length + 1 ∧
      ∃ e : PositionEntry,
        (_fgsls_update_basket_position c taver basket_tag file_tag shelf_id physical_offset
          internal_offset t_access t_update).2.entries = taver.entries ++ [e] ∧
        e.tag = file_tag ∧ e.shelf_id = shelf_id ∧ e.physical_offset = physical_offset ∧
        (file_tag = basket_tag →
          e.container_type = ContainerType.BASKET ∧ e.internal_offset = 0 ∧
          e.size = c.BASKET_DEFAULT_SIZE) ∧
        (file_tag ≠ basket_tag →
          e.container_type = ContainerType.BASKET_FILE ∧
          e.internal_offset = internal_offset ∧ e.size = 0)) := by
  constructor
  · intro hge
    unfold _fgsls_update_basket_position
    simp [hge]
  · intro hlt
    have hn : ¬ taver.entries.length ≥ taver.max_entries := by omega
    by_cases heq : basket_tag = file_tag
    · subst heq
      unfold _fgsls_update_basket_position
      simp [hn]
    · have hne : file_tag ≠ basket_tag := fun h => heq h.symm
      unfold _fgsls_update_basket_position
      simp [hn, heq, hne]

/-- Witness of C23: a basket entry and a file entry inserted into the index of
`storedSystem`, and an insert into a full index. -/
theorem C23_index_insert_witness :
    (_fgsls_update_basket_position sampleConsts storedSystem.taver_index 7 7 0 4096 0
      1001 1002).1 = ErrorCode.SUCCESS ∧
    (_fgsls_update_basket_position sampleConsts storedSystem.taver_index 7 8 0 4096 4196
      1001 1002).2.entries.length = storedSystem.taver_index.entries.length + 1 ∧
    _fgsls_update_basket_position sampleConsts fullIndexSystem.taver_index 7 8 0 4096 4196
      1001 1002 = (ErrorCode.OUT_OF_MEMORY, fullIndexSystem.taver_index) :=
  ⟨((C23_index_insert sampleConsts storedSystem.taver_index 7 7 0 4096 0 1001 1002).2
      (by decide)).1,
   ((C23_index_insert sampleConsts storedSystem.taver_index 7 8 0 4096 4196 1001 1002).2
      (by decide)).2.2.1,
   (C23_index_insert sampleConsts fullIndexSystem.taver_index 7 8 0 4096 4196 1001 1002).1
      (by decide)⟩

theorem firstIndex_eq_map_firstMatch {α : Type} (p : α → Bool) (l : List α) :
    firstIndex p l = (firstMatch p l).map Prod.fst := by
  induction l with
  | nil => rfl
  | cons a l ih =>
    by_cases h : p a = true
    · simp [firstIndex, firstMatch, h]
    · simp only [firstIndex, firstMatch, h, ih, Bool.false_eq_true, if_false, Option.map_map]
      rfl

theorem firstIndex_eq_some_iff {α : Type} (p : α → Bool) (l : List α) (i : Nat) :
    firstIndex p l = some i ↔ ∃ a, IsFirstAt p l i a := by
  constructor
  · exact firstIndex_eq_some p l i
  · rintro ⟨a, ha⟩
    rw [firstIndex_eq_map_firstMatch, (firstMatch_eq_some_iff p l i a).2 ha]
    rfl

theorem add_file_slot_ok (c : Consts) (env : Env) (g : BasketHeader)
    (filename data : List Nat) (n : Nat) (h2 : BasketHeader) (k : Nat)
    (hr : add_file_slot c env g filename data n = .ok (h2, k)) :
    _fgsls_find_free_file_slot g = some k ∧
    h2.files = g.files.set k (new_file_entry c env g filename data n) ∧
    h2.used_space = wrapAdd c.SPACE_MOD g.used_space n ∧
    h2.free_space = g.free_space - n ∧
    h2.file_count = g.file_count + 1 := by
  unfold add_file_slot at hr
  split at hr
  · cases hr
  · rename_i j hj
    simp only [Except.ok.injEq, Prod.mk.injEq] at hr
    obtain ⟨hh, hk⟩ := hr
    subst hk
    subst hh
    exact ⟨hj, rfl, rfl, rfl, rfl⟩

theorem find_free_slot_lt (g : BasketHeader) (k : Nat)
    (h : _fgsls_find_free_file_slot g = some k) : k < g.files.length := by
  obtain ⟨a, ha, _, _⟩ := firstIndex_eq_some _ _ _ h
  exact (List.getElem?_eq_some_iff.1 ha).1

/-- C22. Free-slot search: for every header, `_fgsls_find_free_file_slot` returns
index `i` if and only if slot `i` has the deleted flag set and no slot below `i`
has it set; it fails (BasketFull) if and only if no slot of the header has the
deleted flag set. Consequently, when delete file deletes the file in slot `i`
while all slots below `i` are live, the search on the resulting header returns
`i`, and the next successful add-file update (with or without a compaction
first) puts its file into slot `i`. -/
theorem C22_free_slot_search (c : Consts) (h : BasketHeader) :
    (∀ i : Nat, _fgsls_find_free_file_slot h = some i ↔
      ((∃ f : FileEntry, h.files[i]? = some f ∧ f.is_deleted = true) ∧
       ∀ (j : Nat) (g : FileEntry), j < i → h.files[j]? = some g → g.is_deleted = false)) ∧
    (_fgsls_find_free_file_slot h = none ↔ ∀ f ∈ h.files, f.is_deleted = false) ∧
    (∀ (env : Env) (t : Tag) (h1 : BasketHeader) (f : FileEntry) (i : Nat),
      find_file_entry h t = some (i, f) →
      delete_file_update c env h t = .ok (h1, f) →
      (∀ (j : Nat) (g : FileEntry), j < i → h.files[j]? = some g → g.is_deleted = false) →
      _fgsls_find_free_file_slot h1 = some i ∧
      ∀ (env2 : Env) (filename data : List Nat) (n : Nat) (h2 : BasketHeader) (k : Nat),
        add_file_update c env2 h1 filename data n = .ok (h2, k) →
        k = i ∧ ∃ g : FileEntry, h2.files[i]? = some g ∧ g.tag = env2.gen_tag ∧
          g.is_deleted = false ∧ g.file_size = n) := by
  refine ⟨?_, find_free_slot_none_iff h, ?_⟩
  · intro i
    unfold _fgsls_find_free_file_slot
    rw [firstIndex_eq_some_iff]
    constructor
    · rintro ⟨a, h1, h2, h3⟩
      exact ⟨⟨a, h1, h2⟩, h3⟩
    · rintro ⟨⟨a, h1, h2⟩, h3⟩
      exact ⟨a, h1, h2, h3⟩
  · intro env t h1 f i hf hdel hlive
    have hfirst := (firstMatch_eq_some_iff _ _ _ _).1 hf
    have hi : i < h.files.length := (List.getElem?_eq_some_iff.1 hfirst.1).1
    have hh1 : h1 = mark_deleted c env h i f := by
      unfold delete_file_update at hdel
      rw [hf] at hdel
      simp only [Except.ok.injEq, Prod.mk.injEq, and_true] at hdel
      exact hdel.symm
    have hfiles : h1.files = h.files.set i { f with is_deleted := true } := by
      rw [hh1]; rfl
    have hfree : _fgsls_find_free_file_slot h1 = some i := by
      unfold _fgsls_find_free_file_slot
      rw [firstIndex_eq_some_iff, hfiles]
      refine ⟨{ f with is_deleted := true }, ?_, rfl, ?_⟩
      · exact List.getElem?_set_self hi
      · intro j x hj hx
        rw [List.getElem?_set_ne (by omega)] at hx
        exact hlive j x hj hx
    refine ⟨hfree, ?_⟩
    intro env2 filename data n h2 k hadd
    have hslot : ∀ g : BasketHeader, _fgsls_find_free_file_slot g = some i →
        add_file_slot c env2 g filename data n = .ok (h2, k) →
        k = i ∧ ∃ x : FileEntry, h2.files[i]? = some x ∧ x.tag = env2.gen_tag ∧
          x.is_deleted = false ∧ x.file_size = n := by
      intro g hg hs
      obtain ⟨hk, hfl, _, _, _⟩ := add_file_slot_ok c env2 g filename data n h2 k hs
      rw [hg] at hk
      simp only [Option.some.injEq] at hk
      subst hk
      refine ⟨rfl, new_file_entry c env2 g filename data n, ?_, rfl, rfl, rfl⟩
      rw [hfl]
      exact List.getElem?_set_self (find_free_slot_lt g i hg)
    rcases (add_file_update_ok c env2 h1 filename data n h2 k hadd).2 with
      ⟨_, hs⟩ | ⟨_, _, hs⟩
    · exact hslot h1 hfree hs
    · exact hslot _ (by rw [find_free_slot_compact]; exact hfree) hs

/-- Witness of C22: the first free slot of the created sample header is 0, of
the header with one file it is 1; after deleting that file the search returns 0
again and the next add puts its file (tag 9) into slot 0. -/
theorem C22_free_slot_search_witness :
    _fgsls_find_free_file_slot sampleHeader = some 0 ∧
    _fgsls_find_free_file_slot sampleAdded.1 = some 1 ∧
    _fgsls_find_free_file_slot fullHeader = none ∧
    _fgsls_find_free_file_slot sampleDeleted.1 = some 0 ∧
    sampleReadded.2 = 0 :=
  ⟨((C22_free_slot_search sampleConsts sampleHeader).1 0).2
      ⟨⟨unusedFileEntry, by decide, by decide⟩, fun j _ hj _ => absurd hj (Nat.not_lt_zero j)⟩,
   by decide,
   (C22_free_slot_search sampleConsts fullHeader).2.1.2 (by decide),
   ((C22_free_slot_search sampleConsts sampleAdded.1).2.2 (sampleEnv 10) 8 sampleDeleted.1
      sampleDeleted.2 0 (by rfl) (by rfl)
      (fun j _ hj _ => absurd hj (Nat.not_lt_zero j))).1,
   (((C22_free_slot_search sampleConsts sampleAdded.1).2.2 (sampleEnv 10) 8 sampleDeleted.1
      sampleDeleted.2 0 (by rfl) (by rfl)
      (fun j _ hj _ => absurd hj (Nat.not_lt_zero j))).2 (sampleEnv 9) aTxt
      (List.replicate 50 1) 50 sampleReadded.1 sampleReadded.2 (by rfl)).1⟩

end FGSLS
